import Mathlib

/-!
# Verification of the Rails bootstrap orchestrator (setup.py)

Shallow embedding of the provisioning script `setup.py`.  External command
execution is modelled by an oracle (`Host.exec`) mapping each invocation
(the argv actually handed to `subprocess.run`, together with the optional
environment) to an `ExecResult`.  The script itself is translated into a
state monad `BootM` over `HostState`, which records the relevant parts of
the filesystem, the list of invoked commands (the trace), and the log.
Exceptions (`subprocess.CalledProcessError`, `sys.exit`) are modelled with
an `Except` layer whose state persists across a throw, exactly as Python
side effects persist when an exception propagates.
-/

set_option autoImplicit false

/-- Result of one `subprocess.run(..., capture_output=True, text=True)`. -/
structure ExecResult where
  returncode : Int
  stdout : String
  stderr : String
deriving DecidableEq, Repr

/-- Model of `subprocess.CalledProcessError`.  The Python constructor call
`CalledProcessError(result.returncode, cmd)` leaves the `output` and
`stderr` attributes at their default `None`; we keep both fields so that
what the raised error carries (and does not carry) is visible. -/
structure CalledProcessError where
  returncode : Int
  cmd : List String
  output : Option String
  stderr : Option String
deriving DecidableEq, Repr

/-- Errors that can propagate out of the script: a raised
`subprocess.CalledProcessError`, or `sys.exit(code)`. -/
inductive BootErr where
  | calledProcessError (cpe : CalledProcessError)
  | systemExit (code : Nat)
deriving DecidableEq, Repr

/-- Environment mapping passed as `env=` to `subprocess.run`. -/
abbrev EnvMap := List (String × String)

/-- One call to `subprocess.run`: the final argv (after any `sudo -u`
wrapping) and the `env=` argument (`none` = inherit). -/
structure Invocation where
  argv : List String
  env : Option EnvMap
deriving DecidableEq, Repr

/-- The mutable host state the script reads and writes directly (not via
external commands): the files the script itself touches, the directories it
creates with `Path.mkdir`, plus the observable trace of command invocations
and the log lines emitted. -/
structure HostState where
  fs : List (String × String)
  dirs : List String
  trace : List Invocation
  log : List String
deriving DecidableEq, Repr

/-- The fixed, read-only facts about the host process environment: the
behaviour of external commands (`exec`), the `SUDO_USER` environment
variable, the effective uid, and the inherited `PATH` value
(`os.environ.get("PATH", "")`). -/
structure Host where
  exec : Invocation → ExecResult
  sudoUser : Option String
  euid : Nat
  pathEnv : String

/-- The script monad: state threading plus Python-style exceptions (state
mutations performed before a raise persist). -/
def BootM (α : Type) : Type := HostState → Except BootErr α × HostState

instance : Monad BootM where
  pure a := fun s => (Except.ok a, s)
  bind x f := fun s =>
    match x s with
    | (Except.ok a, s1) => f a s1
    | (Except.error e, s1) => (Except.error e, s1)

/-- `raise e`. -/
def throwB {α : Type} (e : BootErr) : BootM α := fun s => (Except.error e, s)

/-- `try body except subprocess.CalledProcessError: handler`.  Only a
`CalledProcessError` is caught; any other error propagates. -/
def tryCPE {α : Type} (body : BootM α) (handler : BootM α) : BootM α := fun s =>
  match body s with
  | (Except.ok a, s1) => (Except.ok a, s1)
  | (Except.error (BootErr.calledProcessError _), s1) => handler s1
  | (Except.error e, s1) => (Except.error e, s1)

/-- `logger.info(msg)` / `logger.error(msg)`: append a line to the log. -/
def logLine (msg : String) : BootM Unit := fun s =>
  (Except.ok (), { s with log := s.log ++ [msg] })

/-- `Path(p).mkdir(parents=True, exist_ok=True)`: record the created path;
nothing in the script later reads the directory set. -/
def mkdirP (p : String) : BootM Unit := fun s =>
  (Except.ok (), { s with dirs := s.dirs ++ [p] })

/-- Lookup of a path in the modelled filesystem. -/
def fsRead : List (String × String) → String → Option String
  | [], _ => none
  | (q, c) :: rest, p => if q = p then some c else fsRead rest p

/-- Replace the content stored at a present path. -/
def fsSet : List (String × String) → String → String → List (String × String)
  | [], p, c => [(p, c)]
  | (q, c0) :: rest, p, c =>
      if q = p then (q, c) :: rest else (q, c0) :: fsSet rest p c

/-- Append semantics of `open(p, "a")` followed by `f.write(c)`: extend the existing content, creating
the file when absent. -/
def fsAppend (fs : List (String × String)) (p c : String) :
    List (String × String) :=
  match fsRead fs p with
  | some old => fsSet fs p (old ++ c)
  | none => fs ++ [(p, c)]

/-- `Path(p).exists()` / `Path(p).read_text()` combined: the content when
the file exists. -/
def readFileM (p : String) : BootM (Option String) := fun s =>
  (Except.ok (fsRead s.fs p), s)

/-- `Path(p).exists()`. -/
def pathExistsM (p : String) : BootM Bool := fun s =>
  (Except.ok (fsRead s.fs p).isSome, s)

/-- Append to a file as `open(p, "a")` followed by `write` does. -/
def appendFileM (p c : String) : BootM Unit := fun s =>
  (Except.ok (), { s with fs := fsAppend s.fs p c })

/-- Does `sub` occur as a prefix-at-some-position of `hay`? -/
def listInfixAt (sub : List Char) : List Char → Bool
  | [] => sub.isEmpty
  | c :: rest => sub.isPrefixOf (c :: rest) || listInfixAt sub rest

/-- Python substring test `sub in s`. -/
def strContains (s sub : String) : Bool :=
  listInfixAt sub.toList s.toList

/-- A single-quote character, used when assembling the SQL text. -/
def squote : String := String.singleton (Char.ofNat 39)

/-! ## The translated script -/

/-- The object state built by `RailsBootstrap.__init__`. -/
structure RailsBootstrap where
  user : String
  user_home : String
  mise_bin : String
  packages : List String
deriving DecidableEq, Repr

/-- `RailsBootstrap.__init__`: `self.user = os.environ.get("SUDO_USER",
"ubuntu")`, `self.user_home = Path("/home/" + self.user)`,
`self.mise_bin = str(self.user_home / ".local" / "bin" / "mise")`, and the
fixed package list. -/
def RailsBootstrap.init (sudoUser : Option String) : RailsBootstrap :=
  let user := sudoUser.getD "ubuntu"
  let home := "/home/" ++ user
  { user := user
    user_home := home
    mise_bin := home ++ "/.local/bin/mise"
    packages :=
      ["build-essential", "curl", "git", "libpq-dev", "zlib1g-dev",
       "libssl-dev", "libreadline-dev", "libyaml-dev", "libsqlite3-dev",
       "sqlite3", "libxml2-dev", "libxslt1-dev", "libcurl4-openssl-dev",
       "libffi-dev", "postgresql", "postgresql-contrib"] }

/-- The argv actually executed: when a user other than root is requested,
the command list is prefixed with `sudo -u <user> -H`.  The Python guard
is `if user and user != ...root...`, so by string truthiness an empty user
name (like a missing one) also runs unwrapped. -/
def applyUserWrapper (user : Option String) (cmd : List String) :
    List String :=
  match user with
  | some u => if u ≠ "" ∧ u ≠ "root" then ["sudo", "-u", u, "-H"] ++ cmd
              else cmd
  | none => cmd

/-- `RailsBootstrap.runCmd`: wrap the argv for a non-root user, run it,
and on a non-zero exit log `Command failed: ...` and raise
`subprocess.CalledProcessError(result.returncode, cmd)`. -/
def runCmd (host : Host) (cmd0 : List String) (user : Option String)
    (env : Option EnvMap) : BootM ExecResult := fun s =>
  let cmd := applyUserWrapper user cmd0
  let inv : Invocation := ⟨cmd, env⟩
  let result := host.exec inv
  let s1 := { s with trace := s.trace ++ [inv] }
  if result.returncode ≠ 0 then
    (Except.error (BootErr.calledProcessError
        ⟨result.returncode, cmd, none, none⟩),
     { s1 with
        log := s1.log ++ ["Command failed: " ++ String.intercalate " " cmd] })
  else
    (Except.ok result, s1)

/-- `RailsBootstrap.ensure_user`. -/
def ensure_user (host : Host) (b : RailsBootstrap) : BootM Unit := do
  tryCPE
    (do let _ ← runCmd host ["id", b.user] none none
        pure ())
    (do let _ ← runCmd host ["useradd", "-m", "-s", "/bin/bash", b.user]
              none none
        let _ ← runCmd host ["usermod", "-aG", "sudo", b.user] none none
        pure ())
  mkdirP b.user_home
  let _ ← runCmd host ["chown", b.user ++ ":" ++ b.user, b.user_home]
        none none
  pure ()

/-- `RailsBootstrap.install_packages`. -/
def install_packages (host : Host) (b : RailsBootstrap) : BootM Unit := do
  logLine "Installing packages..."
  let _ ← runCmd host ["apt-get", "update"] none none
  let _ ← runCmd host (["apt-get", "install", "-y"] ++ b.packages) none none
  pure ()

/-- The shell text piped to `bash -c` to install mise. -/
def miseInstallScript : String := "curl https://mise.jdx.dev/install.sh | sh"

/-- `RailsBootstrap.install_mise`. -/
def install_mise (host : Host) (b : RailsBootstrap) : BootM Unit := do
  let present ← pathExistsM (b.user_home ++ "/.local/bin/mise")
  if present then
    pure ()
  else do
    logLine "Installing mise..."
    mkdirP (b.user_home ++ "/.local/bin")
    let _ ← runCmd host
          ["chown", "-R", b.user ++ ":" ++ b.user, b.user_home ++ "/.local"]
          none none
    let _ ← runCmd host ["bash", "-c", miseInstallScript] (some b.user)
          (some [("HOME", b.user_home)])
    pure ()

/-- The configuration block appended to `.bashrc` (verbatim from the
triple-quoted Python string). -/
def miseConfig : String :=
  "\n# mise configuration\nexport PATH=\"$HOME/.local/bin:$PATH\"\nif command -v mise >/dev/null 2>&1; then\n    eval \"$(mise activate bash)\"\nfi\n"

/-- The early-return test of `setup_shell`: the file exists and its content
contains the marker `mise activate`. -/
def bashrcSatisfied : Option String → Bool
  | some content => strContains content "mise activate"
  | none => false

/-- `RailsBootstrap.setup_shell`. -/
def setup_shell (host : Host) (b : RailsBootstrap) : BootM Unit := do
  let bashrc := b.user_home ++ "/.bashrc"
  let content ← readFileM bashrc
  if bashrcSatisfied content then
    pure ()
  else do
    appendFileM bashrc miseConfig
    let _ ← runCmd host ["chown", b.user ++ ":" ++ b.user, bashrc] none none
    pure ()

/-- The env dict built for mise and gem commands (`HOME`, and `PATH` with
the per-user bin directory prepended to the inherited `PATH`). -/
def userEnv (host : Host) (b : RailsBootstrap) : EnvMap :=
  [("HOME", b.user_home),
   ("PATH", b.user_home ++ "/.local/bin:" ++ host.pathEnv)]

/-- The `for runtime in [...]` loop body of `install_runtimes`. -/
def install_runtimes_loop (host : Host) (b : RailsBootstrap) (env : EnvMap) :
    List String → BootM Unit
  | [] => pure ()
  | r :: rest => do
      let _ ← runCmd host [b.mise_bin, "install", r] (some b.user) (some env)
      let _ ← runCmd host [b.mise_bin, "use", "--global", r] (some b.user)
            (some env)
      install_runtimes_loop host b env rest

/-- `RailsBootstrap.install_runtimes`. -/
def install_runtimes (host : Host) (b : RailsBootstrap) : BootM Unit := do
  logLine "Installing Ruby, Node.js, and Yarn..."
  install_runtimes_loop host b (userEnv host b)
    ["ruby@latest", "node@lts", "yarn@latest"]

/-- The SQL text `SELECT 1 FROM pg_user WHERE usename = ...;` with the
user name interpolated between single quotes. -/
def roleQuerySQL (u : String) : String :=
  "SELECT 1 FROM pg_user WHERE usename = " ++ squote ++ u ++ squote ++ ";"

/-- The SQL text `CREATE USER ... WITH SUPERUSER CREATEDB PASSWORD ...;`
with the user name interpolated (and single-quoted as the password). -/
def createUserSQL (u : String) : String :=
  "CREATE USER " ++ u ++ " WITH SUPERUSER CREATEDB PASSWORD " ++ squote ++ u ++
    squote ++ ";"

/-- `RailsBootstrap.setup_postgresql`. -/
def setup_postgresql (host : Host) (b : RailsBootstrap) : BootM Unit := do
  logLine "Setting up PostgreSQL..."
  let _ ← runCmd host ["systemctl", "enable", "postgresql"] none none
  let _ ← runCmd host ["systemctl", "start", "postgresql"] none none
  tryCPE
    (do let result ← runCmd host
              ["sudo", "-u", "postgres", "psql", "-t", "-c",
               roleQuerySQL b.user] none none
        if strContains result.stdout "1" then
          pure ()
        else do
          let _ ← runCmd host
                ["sudo", "-u", "postgres", "psql", "-c", createUserSQL b.user]
                none none
          pure ())
    (pure ())

/-- The triple-quoted shell text piped to `bash -c` by `install_rails`. -/
def railsScript : String :=
  "\n        export PATH=\"$HOME/.local/bin:$PATH\"\n        eval \"$(mise activate bash)\"\n        gem install rails --no-document\n        "

/-- `RailsBootstrap.install_rails`. -/
def install_rails (host : Host) (b : RailsBootstrap) : BootM Unit := do
  logLine "Installing Rails..."
  let _ ← runCmd host ["bash", "-c", railsScript] (some b.user)
        (some (userEnv host b))
  pure ()

/-- The step sequence of `RailsBootstrap.run` after the privilege check. -/
def bootSteps (host : Host) (b : RailsBootstrap) : BootM Unit := do
  logLine "Starting Rails environment setup..."
  ensure_user host b
  install_packages host b
  install_mise host b
  setup_shell host b
  install_runtimes host b
  setup_postgresql host b
  install_rails host b
  logLine ("✅ Setup complete! Switch to user: sudo su - " ++ b.user)

/-- `RailsBootstrap.run`: the `os.geteuid() != 0` preflight check
(`logger.error` then `sys.exit(1)`) followed by the step sequence. -/
def bootRun (host : Host) (b : RailsBootstrap) : BootM Unit := do
  if host.euid ≠ 0 then do
    logLine "Run as root: sudo python3 setup.py"
    throwB (BootErr.systemExit 1)
  else
    bootSteps host b

/-- The `__main__` entry: builds the object from `SUDO_USER` and runs it.
Returns the process exit status (an uncaught Python exception terminates
the interpreter with status 1; `sys.exit(c)` terminates with status `c`)
together with the final host state. -/
def bootstrap_main (host : Host) (s0 : HostState) : Nat × HostState :=
  let b := RailsBootstrap.init host.sudoUser
  match bootRun host b s0 with
  | (Except.ok _, s) => (0, s)
  | (Except.error (BootErr.systemExit c), s) => (c, s)
  | (Except.error (BootErr.calledProcessError _), s) => (1, s)

/-! ## Named command invocations

One abbreviation per `subprocess.run` call site of the script, recording
the exact argv (after the `sudo -u` wrapping of `runCmd`) and environment
with which it reaches the oracle. -/

/-- The `id <user>` existence query of `ensure_user`. -/
def idInv (u : String) : Invocation := ⟨["id", u], none⟩

/-- The `useradd` call of `ensure_user`. -/
def useraddInv (u : String) : Invocation :=
  ⟨["useradd", "-m", "-s", "/bin/bash", u], none⟩

/-- The `usermod` call of `ensure_user`. -/
def usermodInv (u : String) : Invocation :=
  ⟨["usermod", "-aG", "sudo", u], none⟩

/-- The `chown` of the home directory in `ensure_user`. -/
def chownHomeInv (b : RailsBootstrap) : Invocation :=
  ⟨["chown", b.user ++ ":" ++ b.user, b.user_home], none⟩

/-- `apt-get update` in `install_packages`. -/
def aptUpdateInv : Invocation := ⟨["apt-get", "update"], none⟩

/-- `apt-get install -y <packages>` in `install_packages`. -/
def aptInstallInv (b : RailsBootstrap) : Invocation :=
  ⟨["apt-get", "install", "-y"] ++ b.packages, none⟩

/-- The recursive `chown -R` of `.local` in `install_mise`. -/
def chownLocalInv (b : RailsBootstrap) : Invocation :=
  ⟨["chown", "-R", b.user ++ ":" ++ b.user, b.user_home ++ "/.local"], none⟩

/-- The `bash -c` mise installer call (curl piped to sh) of `install_mise`. -/
def curlMiseInv (b : RailsBootstrap) : Invocation :=
  ⟨applyUserWrapper (some b.user) ["bash", "-c", miseInstallScript],
   some [("HOME", b.user_home)]⟩

/-- The `chown` of `.bashrc` in `setup_shell`. -/
def chownBashrcInv (b : RailsBootstrap) : Invocation :=
  ⟨["chown", b.user ++ ":" ++ b.user, b.user_home ++ "/.bashrc"], none⟩

/-- `mise install <r>` in `install_runtimes`. -/
def miseInstallInv (host : Host) (b : RailsBootstrap) (r : String) :
    Invocation :=
  ⟨applyUserWrapper (some b.user) [b.mise_bin, "install", r],
   some (userEnv host b)⟩

/-- `mise use --global <r>` in `install_runtimes`. -/
def miseUseInv (host : Host) (b : RailsBootstrap) (r : String) : Invocation :=
  ⟨applyUserWrapper (some b.user) [b.mise_bin, "use", "--global", r],
   some (userEnv host b)⟩

/-- `systemctl enable postgresql` in `setup_postgresql`. -/
def sysEnableInv : Invocation := ⟨["systemctl", "enable", "postgresql"], none⟩

/-- `systemctl start postgresql` in `setup_postgresql`. -/
def sysStartInv : Invocation := ⟨["systemctl", "start", "postgresql"], none⟩

/-- The role-existence query of `setup_postgresql`. -/
def pgQueryInv (u : String) : Invocation :=
  ⟨["sudo", "-u", "postgres", "psql", "-t", "-c", roleQuerySQL u], none⟩

/-- The `CREATE USER` command of `setup_postgresql`. -/
def pgCreateInv (u : String) : Invocation :=
  ⟨["sudo", "-u", "postgres", "psql", "-c", createUserSQL u], none⟩

/-- The `bash -c` gem-install-rails call of `install_rails`. -/
def railsInv (host : Host) (b : RailsBootstrap) : Invocation :=
  ⟨applyUserWrapper (some b.user) ["bash", "-c", railsScript],
   some (userEnv host b)⟩

/-- The three invocations whose non-zero exits are absorbed by a
`try/except` rather than propagated: the user-existence query of
`ensure_user` and the two `psql` commands inside the guarded block of
`setup_postgresql`. -/
def guardedInvs (u : String) : List Invocation :=
  [idInv u, pgQueryInv u, pgCreateInv u]

/-! ## Concrete hosts for witnesses and counterexamples -/

/-- The object built when `SUDO_USER` is unset. -/
def bUbuntu : RailsBootstrap := RailsBootstrap.init none

/-- A fully provisioned host: every external command succeeds and the
role-existence query prints a `1` row. -/
def provHost : Host :=
  { exec := fun inv =>
      if inv = pgQueryInv "ubuntu" then ⟨0, " 1\n", ""⟩ else ⟨0, "", ""⟩
    sudoUser := none
    euid := 0
    pathEnv := "/usr/local/bin:/usr/bin:/bin" }

/-- A fully provisioned filesystem: the mise binary is installed and the
shell startup file already contains the activation marker. -/
def provState : HostState :=
  { fs := [("/home/ubuntu/.local/bin/mise", "binary"),
           ("/home/ubuntu/.bashrc", miseConfig)]
    dirs := []
    trace := []
    log := [] }

/-- A host on which the role-existence query itself fails (database not
reachable) while every other command succeeds. -/
def qfailHost : Host :=
  { exec := fun inv =>
      if inv = pgQueryInv "ubuntu" then
        ⟨2, "", "psql: error: connection refused"⟩
      else ⟨0, "", ""⟩
    sudoUser := none
    euid := 0
    pathEnv := "/usr/bin:/bin" }

/-- A host on which the `id` user-existence query fails (user absent)
while every other command succeeds; the query prints empty output so the
role is reported absent and created. -/
def idfailHost : Host :=
  { exec := fun inv =>
      if inv = idInv "ubuntu" then ⟨1, "", "id: no such user"⟩
      else ⟨0, "", ""⟩
    sudoUser := none
    euid := 0
    pathEnv := "/usr/bin:/bin" }

/-- A host on which the `CREATE USER` command fails while every other
command succeeds and the role query reports the role as absent. -/
def createFailHost : Host :=
  { exec := fun inv =>
      if inv = pgCreateInv "ubuntu" then ⟨1, "", "psql: error"⟩
      else ⟨0, "", ""⟩
    sudoUser := none
    euid := 0
    pathEnv := "/usr/bin:/bin" }

/-- A host on which every command fails with captured output on both
streams. -/
def streamHost : Host :=
  { exec := fun _ => ⟨3, "captured out", "captured err"⟩
    sudoUser := none
    euid := 0
    pathEnv := "/usr/bin:/bin" }

/-- A host whose effective uid is not 0. -/
def nonRootHost : Host :=
  { exec := fun _ => ⟨0, "", ""⟩
    sudoUser := none
    euid := 1000
    pathEnv := "/usr/bin:/bin" }

/-- A host where `apt-get update` fails and everything else succeeds. -/
def aptFailHost : Host :=
  { exec := fun inv =>
      if inv = aptUpdateInv then ⟨100, "", "apt error"⟩ else ⟨0, "", ""⟩
    sudoUser := none
    euid := 0
    pathEnv := "/usr/bin:/bin" }

/-- A filesystem state whose shell startup file exists but does not yet
contain the activation marker. -/
def noMarkState : HostState :=
  { fs := [("/home/ubuntu/.bashrc", "# plain bashrc\n"),
           ("/home/ubuntu/.local/bin/mise", "binary")]
    dirs := []
    trace := []
    log := [] }

/-- An empty starting state (fresh interpreter). -/
def emptyState : HostState := { fs := [], dirs := [], trace := [], log := [] }

/-! ## Specification predicates about traces and errors -/

/-- An invocation that either succeeded or belongs to the guarded set `G`
(those whose failures the script absorbs). -/
def okOrGuarded (host : Host) (G : List Invocation) (inv : Invocation) :
    Prop :=
  (host.exec inv).returncode = 0 ∨ inv ∈ G

/-- Trace discipline of a computation: it only appends invocations to the
trace; when it returns normally, every appended invocation succeeded or was
guarded; when it raises, the appended invocations are a run of
succeeded-or-guarded commands followed by one final failing command, and
nothing after the failure was invoked. -/
def TraceSpec (host : Host) (G : List Invocation) {α : Type}
    (x : BootM α) : Prop :=
  ∀ s : HostState, ∃ new : List Invocation,
    (x s).2.trace = s.trace ++ new ∧
    ((∃ a, (x s).1 = Except.ok a) →
      ∀ inv ∈ new, okOrGuarded host G inv) ∧
    ((∃ e, (x s).1 = Except.error e) →
      ∃ pre last, new = pre ++ [last] ∧
        (host.exec last).returncode ≠ 0 ∧
        ∀ inv ∈ pre, okOrGuarded host G inv)

/-- A computation that only ever invokes commands from the guarded set
(whatever their results). -/
def GuardedOnly (G : List Invocation) {α : Type} (x : BootM α) : Prop :=
  ∀ s : HostState, ∃ new : List Invocation,
    (x s).2.trace = s.trace ++ new ∧ ∀ inv ∈ new, inv ∈ G

/-- A computation whose only errors are `subprocess.CalledProcessError`. -/
def CPEOnly {α : Type} (x : BootM α) : Prop :=
  ∀ (s : HostState) (e : BootErr), (x s).1 = Except.error e →
    ∃ c, e = BootErr.calledProcessError c

/-! ## Stepping lemmas for the monad -/

theorem bind_apply {α β : Type} (x : BootM α) (f : α → BootM β)
    (s : HostState) :
    (x >>= f) s =
      match x s with
      | (Except.ok a, s1) => f a s1
      | (Except.error e, s1) => (Except.error e, s1) := rfl

theorem bind_ok {α β : Type} {x : BootM α} {f : α → BootM β}
    {s s1 : HostState} {a : α} (h : x s = (Except.ok a, s1)) :
    (x >>= f) s = f a s1 := by
  rw [bind_apply, h]

theorem bind_err {α β : Type} {x : BootM α} {f : α → BootM β}
    {s s1 : HostState} {e : BootErr} (h : x s = (Except.error e, s1)) :
    (x >>= f) s = (Except.error e, s1) := by
  rw [bind_apply, h]

theorem pure_apply {α : Type} (a : α) (s : HostState) :
    (pure a : BootM α) s = (Except.ok a, s) := rfl

theorem logLine_apply (msg : String) (s : HostState) :
    logLine msg s = (Except.ok (), { s with log := s.log ++ [msg] }) := rfl

theorem mkdirP_apply (p : String) (s : HostState) :
    mkdirP p s = (Except.ok (), { s with dirs := s.dirs ++ [p] }) := rfl

theorem readFileM_apply (p : String) (s : HostState) :
    readFileM p s = (Except.ok (fsRead s.fs p), s) := rfl

theorem pathExistsM_apply (p : String) (s : HostState) :
    pathExistsM p s = (Except.ok (fsRead s.fs p).isSome, s) := rfl

theorem appendFileM_apply (p c : String) (s : HostState) :
    appendFileM p c s =
      (Except.ok (), { s with fs := fsAppend s.fs p c }) := rfl

theorem tryCPE_apply {α : Type} (body handler : BootM α) (s : HostState) :
    tryCPE body handler s =
      match body s with
      | (Except.ok a, s1) => (Except.ok a, s1)
      | (Except.error (BootErr.calledProcessError _), s1) => handler s1
      | (Except.error e, s1) => (Except.error e, s1) := rfl

theorem tryCPE_ok {α : Type} {body handler : BootM α} {s s1 : HostState}
    {a : α} (h : body s = (Except.ok a, s1)) :
    tryCPE body handler s = (Except.ok a, s1) := by
  rw [tryCPE_apply, h]

theorem tryCPE_caught {α : Type} {body handler : BootM α} {s s1 : HostState}
    {c : CalledProcessError}
    (h : body s = (Except.error (BootErr.calledProcessError c), s1)) :
    tryCPE body handler s = handler s1 := by
  rw [tryCPE_apply, h]

theorem runCmd_ok (host : Host) (cmd0 : List String) (user : Option String)
    (env : Option EnvMap) (inv : Invocation)
    (hinv : inv = Invocation.mk (applyUserWrapper user cmd0) env)
    (h : (host.exec inv).returncode = 0) (s : HostState) :
    runCmd host cmd0 user env s =
      (Except.ok (host.exec inv), { s with trace := s.trace ++ [inv] }) := by
  subst hinv
  unfold runCmd
  simp [h]

theorem runCmd_err (host : Host) (cmd0 : List String) (user : Option String)
    (env : Option EnvMap) (inv : Invocation)
    (hinv : inv = Invocation.mk (applyUserWrapper user cmd0) env)
    (h : (host.exec inv).returncode ≠ 0) (s : HostState) :
    runCmd host cmd0 user env s =
      (Except.error (BootErr.calledProcessError
          ⟨(host.exec inv).returncode, inv.argv, none, none⟩),
       { s with trace := s.trace ++ [inv],
                log := s.log ++
                  ["Command failed: " ++ String.intercalate " " inv.argv] }) := by
  subst hinv
  unfold runCmd
  simp [h]

/-! ## Sequencing rewrite rules: one per kind of bound computation -/

theorem seq_logLine {α : Type} (m : String) (f : Unit → BootM α)
    (s : HostState) :
    (logLine m >>= f) s = f () { s with log := s.log ++ [m] } := rfl

theorem seq_mkdirP {α : Type} (p : String) (f : Unit → BootM α)
    (s : HostState) :
    (mkdirP p >>= f) s = f () { s with dirs := s.dirs ++ [p] } := rfl

theorem seq_readFileM {α : Type} (p : String) (f : Option String → BootM α)
    (s : HostState) :
    (readFileM p >>= f) s = f (fsRead s.fs p) s := rfl

theorem seq_pathExistsM {α : Type} (p : String) (f : Bool → BootM α)
    (s : HostState) :
    (pathExistsM p >>= f) s = f (fsRead s.fs p).isSome s := rfl

theorem seq_appendFileM {α : Type} (p c : String) (f : Unit → BootM α)
    (s : HostState) :
    (appendFileM p c >>= f) s = f () { s with fs := fsAppend s.fs p c } := rfl

theorem seq_runCmd_ok (host : Host) (cmd0 : List String)
    (user : Option String) (env : Option EnvMap) (inv : Invocation)
    (hinv : inv = Invocation.mk (applyUserWrapper user cmd0) env)
    (h : (host.exec inv).returncode = 0) {α : Type}
    (f : ExecResult → BootM α) (s : HostState) :
    (runCmd host cmd0 user env >>= f) s =
      f (host.exec inv) { s with trace := s.trace ++ [inv] } := by
  rw [bind_ok (runCmd_ok host cmd0 user env inv hinv h s)]

theorem seq_runCmd_err (host : Host) (cmd0 : List String)
    (user : Option String) (env : Option EnvMap) (inv : Invocation)
    (hinv : inv = Invocation.mk (applyUserWrapper user cmd0) env)
    (h : (host.exec inv).returncode ≠ 0) {α : Type}
    (f : ExecResult → BootM α) (s : HostState) :
    (runCmd host cmd0 user env >>= f) s =
      (Except.error (BootErr.calledProcessError
          ⟨(host.exec inv).returncode, inv.argv, none, none⟩),
       { s with trace := s.trace ++ [inv],
                log := s.log ++
                  ["Command failed: " ++
                    String.intercalate " " inv.argv] }) := by
  rw [bind_err (runCmd_err host cmd0 user env inv hinv h s)]

/-! ## Forward characterization of each step -/

theorem ensure_user_fwd_exists (host : Host) (b : RailsBootstrap)
    (hid : (host.exec (idInv b.user)).returncode = 0)
    (hch : (host.exec (chownHomeInv b)).returncode = 0) (s : HostState) :
    ensure_user host b s =
      (Except.ok (),
       { s with dirs := s.dirs ++ [b.user_home],
                trace := s.trace ++ [idInv b.user, chownHomeInv b] }) := by
  unfold ensure_user
  simp only [bind_apply, tryCPE_apply,
    runCmd_ok host ["id", b.user] none none (idInv b.user) rfl hid,
    runCmd_ok host ["chown", b.user ++ ":" ++ b.user, b.user_home] none
      none (chownHomeInv b) rfl hch,
    mkdirP_apply, pure_apply]
  simp [List.append_assoc]

theorem ensure_user_fwd_created (host : Host) (b : RailsBootstrap)
    (hid : (host.exec (idInv b.user)).returncode ≠ 0)
    (hua : (host.exec (useraddInv b.user)).returncode = 0)
    (hum : (host.exec (usermodInv b.user)).returncode = 0)
    (hch : (host.exec (chownHomeInv b)).returncode = 0) (s : HostState) :
    ensure_user host b s =
      (Except.ok (),
       { s with dirs := s.dirs ++ [b.user_home],
                trace := s.trace ++ [idInv b.user, useraddInv b.user,
                  usermodInv b.user, chownHomeInv b],
                log := s.log ++ ["Command failed: " ++
                  String.intercalate " " (idInv b.user).argv] }) := by
  unfold ensure_user
  simp only [bind_apply, tryCPE_apply,
    runCmd_err host ["id", b.user] none none (idInv b.user) rfl hid,
    runCmd_ok host ["useradd", "-m", "-s", "/bin/bash", b.user] none none
      (useraddInv b.user) rfl hua,
    runCmd_ok host ["usermod", "-aG", "sudo", b.user] none none
      (usermodInv b.user) rfl hum,
    runCmd_ok host ["chown", b.user ++ ":" ++ b.user, b.user_home] none
      none (chownHomeInv b) rfl hch,
    mkdirP_apply, pure_apply]
  simp [List.append_assoc]

theorem install_packages_fwd (host : Host) (b : RailsBootstrap)
    (hu : (host.exec aptUpdateInv).returncode = 0)
    (hi : (host.exec (aptInstallInv b)).returncode = 0) (s : HostState) :
    install_packages host b s =
      (Except.ok (),
       { s with trace := s.trace ++ [aptUpdateInv, aptInstallInv b],
                log := s.log ++ ["Installing packages..."] }) := by
  unfold install_packages
  simp only [bind_apply,
    runCmd_ok host ["apt-get", "update"] none none aptUpdateInv rfl hu,
    runCmd_ok host (["apt-get", "install", "-y"] ++ b.packages) none none
      (aptInstallInv b) rfl hi,
    logLine_apply, pure_apply]
  simp [List.append_assoc]

theorem install_mise_fwd_present (host : Host) (b : RailsBootstrap)
    (fs0 : List (String × String))
    (hm : (fsRead fs0 (b.user_home ++ "/.local/bin/mise")).isSome = true)
    (t : HostState) (ht : t.fs = fs0) :
    install_mise host b t = (Except.ok (), t) := by
  unfold install_mise
  simp only [bind_apply, pathExistsM_apply, ht, hm]
  simp [pure_apply]

theorem setup_shell_fwd_marker (host : Host) (b : RailsBootstrap)
    (fs0 : List (String × String))
    (hsat : bashrcSatisfied (fsRead fs0 (b.user_home ++ "/.bashrc")) = true)
    (t : HostState) (ht : t.fs = fs0) :
    setup_shell host b t = (Except.ok (), t) := by
  unfold setup_shell
  simp only [bind_apply, readFileM_apply, ht, hsat]
  simp [pure_apply]

theorem setup_shell_fwd_append (host : Host) (b : RailsBootstrap)
    (fs0 : List (String × String))
    (hsat : bashrcSatisfied (fsRead fs0 (b.user_home ++ "/.bashrc")) = false)
    (hch : (host.exec (chownBashrcInv b)).returncode = 0)
    (t : HostState) (ht : t.fs = fs0) :
    setup_shell host b t =
      (Except.ok (),
       { t with fs := fsAppend fs0 (b.user_home ++ "/.bashrc") miseConfig,
                trace := t.trace ++ [chownBashrcInv b] }) := by
  unfold setup_shell
  simp only [bind_apply, readFileM_apply, ht, hsat]
  have hcond : (false = true) = False := by simp
  simp only [hcond, if_false]
  simp only [bind_apply, appendFileM_apply,
    runCmd_ok host ["chown", b.user ++ ":" ++ b.user,
      b.user_home ++ "/.bashrc"] none none (chownBashrcInv b) rfl hch,
    pure_apply]
  simp [List.append_assoc, ht]

theorem install_runtimes_fwd (host : Host) (b : RailsBootstrap)
    (h1 : (host.exec (miseInstallInv host b "ruby@latest")).returncode = 0)
    (h2 : (host.exec (miseUseInv host b "ruby@latest")).returncode = 0)
    (h3 : (host.exec (miseInstallInv host b "node@lts")).returncode = 0)
    (h4 : (host.exec (miseUseInv host b "node@lts")).returncode = 0)
    (h5 : (host.exec (miseInstallInv host b "yarn@latest")).returncode = 0)
    (h6 : (host.exec (miseUseInv host b "yarn@latest")).returncode = 0)
    (s : HostState) :
    install_runtimes host b s =
      (Except.ok (),
       { s with trace := s.trace ++
                  [miseInstallInv host b "ruby@latest",
                   miseUseInv host b "ruby@latest",
                   miseInstallInv host b "node@lts",
                   miseUseInv host b "node@lts",
                   miseInstallInv host b "yarn@latest",
                   miseUseInv host b "yarn@latest"],
                log := s.log ++ ["Installing Ruby, Node.js, and Yarn..."] }) := by
  unfold install_runtimes install_runtimes_loop
  simp only [bind_apply, install_runtimes_loop,
    runCmd_ok host [b.mise_bin, "install", "ruby@latest"] (some b.user)
      (some (userEnv host b)) (miseInstallInv host b "ruby@latest") rfl h1,
    runCmd_ok host [b.mise_bin, "use", "--global", "ruby@latest"]
      (some b.user) (some (userEnv host b))
      (miseUseInv host b "ruby@latest") rfl h2,
    runCmd_ok host [b.mise_bin, "install", "node@lts"] (some b.user)
      (some (userEnv host b)) (miseInstallInv host b "node@lts") rfl h3,
    runCmd_ok host [b.mise_bin, "use", "--global", "node@lts"]
      (some b.user) (some (userEnv host b))
      (miseUseInv host b "node@lts") rfl h4,
    runCmd_ok host [b.mise_bin, "install", "yarn@latest"] (some b.user)
      (some (userEnv host b)) (miseInstallInv host b "yarn@latest") rfl h5,
    runCmd_ok host [b.mise_bin, "use", "--global", "yarn@latest"]
      (some b.user) (some (userEnv host b))
      (miseUseInv host b "yarn@latest") rfl h6,
    logLine_apply, pure_apply]
  simp [List.append_assoc]

theorem install_rails_fwd (host : Host) (b : RailsBootstrap)
    (hr : (host.exec (railsInv host b)).returncode = 0) (s : HostState) :
    install_rails host b s =
      (Except.ok (),
       { s with trace := s.trace ++ [railsInv host b],
                log := s.log ++ ["Installing Rails..."] }) := by
  unfold install_rails
  simp only [bind_apply,
    runCmd_ok host ["bash", "-c", railsScript] (some b.user)
      (some (userEnv host b)) (railsInv host b) rfl hr,
    logLine_apply, pure_apply]

theorem setup_postgresql_fwd_present (host : Host) (b : RailsBootstrap)
    (he : (host.exec sysEnableInv).returncode = 0)
    (hs : (host.exec sysStartInv).returncode = 0)
    (hq : (host.exec (pgQueryInv b.user)).returncode = 0)
    (h1 : strContains (host.exec (pgQueryInv b.user)).stdout "1" = true)
    (s : HostState) :
    setup_postgresql host b s =
      (Except.ok (),
       { s with trace := s.trace ++ [sysEnableInv, sysStartInv,
                  pgQueryInv b.user],
                log := s.log ++ ["Setting up PostgreSQL..."] }) := by
  unfold setup_postgresql
  simp only [bind_apply, tryCPE_apply,
    runCmd_ok host ["systemctl", "enable", "postgresql"] none none
      sysEnableInv rfl he,
    runCmd_ok host ["systemctl", "start", "postgresql"] none none
      sysStartInv rfl hs,
    runCmd_ok host ["sudo", "-u", "postgres", "psql", "-t", "-c",
      roleQuerySQL b.user] none none (pgQueryInv b.user) rfl hq,
    h1, logLine_apply, pure_apply]
  simp [List.append_assoc]

theorem setup_postgresql_fwd_create_ok (host : Host) (b : RailsBootstrap)
    (he : (host.exec sysEnableInv).returncode = 0)
    (hs : (host.exec sysStartInv).returncode = 0)
    (hq : (host.exec (pgQueryInv b.user)).returncode = 0)
    (h1 : strContains (host.exec (pgQueryInv b.user)).stdout "1" = false)
    (hc : (host.exec (pgCreateInv b.user)).returncode = 0)
    (s : HostState) :
    setup_postgresql host b s =
      (Except.ok (),
       { s with trace := s.trace ++ [sysEnableInv, sysStartInv,
                  pgQueryInv b.user, pgCreateInv b.user],
                log := s.log ++ ["Setting up PostgreSQL..."] }) := by
  unfold setup_postgresql
  simp only [bind_apply, tryCPE_apply,
    runCmd_ok host ["systemctl", "enable", "postgresql"] none none
      sysEnableInv rfl he,
    runCmd_ok host ["systemctl", "start", "postgresql"] none none
      sysStartInv rfl hs,
    runCmd_ok host ["sudo", "-u", "postgres", "psql", "-t", "-c",
      roleQuerySQL b.user] none none (pgQueryInv b.user) rfl hq,
    h1, logLine_apply, pure_apply]
  have hcond : (false = true) = False := by simp
  simp only [hcond, if_false]
  simp only [bind_apply,
    runCmd_ok host ["sudo", "-u", "postgres", "psql", "-c",
      createUserSQL b.user] none none (pgCreateInv b.user) rfl hc,
    pure_apply]
  simp [List.append_assoc]

theorem setup_postgresql_fwd_create_fail (host : Host) (b : RailsBootstrap)
    (he : (host.exec sysEnableInv).returncode = 0)
    (hs : (host.exec sysStartInv).returncode = 0)
    (hq : (host.exec (pgQueryInv b.user)).returncode = 0)
    (h1 : strContains (host.exec (pgQueryInv b.user)).stdout "1" = false)
    (hc : (host.exec (pgCreateInv b.user)).returncode ≠ 0)
    (s : HostState) :
    setup_postgresql host b s =
      (Except.ok (),
       { s with trace := s.trace ++ [sysEnableInv, sysStartInv,
                  pgQueryInv b.user, pgCreateInv b.user],
                log := s.log ++ ["Setting up PostgreSQL...",
                  "Command failed: " ++
                    String.intercalate " " (pgCreateInv b.user).argv] }) := by
  unfold setup_postgresql
  simp only [bind_apply, tryCPE_apply,
    runCmd_ok host ["systemctl", "enable", "postgresql"] none none
      sysEnableInv rfl he,
    runCmd_ok host ["systemctl", "start", "postgresql"] none none
      sysStartInv rfl hs,
    runCmd_ok host ["sudo", "-u", "postgres", "psql", "-t", "-c",
      roleQuerySQL b.user] none none (pgQueryInv b.user) rfl hq,
    h1, logLine_apply, pure_apply]
  have hcond : (false = true) = False := by simp
  simp only [hcond, if_false]
  simp only [bind_apply,
    runCmd_err host ["sudo", "-u", "postgres", "psql", "-c",
      createUserSQL b.user] none none (pgCreateInv b.user) rfl hc,
    pure_apply]
  simp [List.append_assoc]

theorem setup_postgresql_fwd_query_fail (host : Host) (b : RailsBootstrap)
    (he : (host.exec sysEnableInv).returncode = 0)
    (hs : (host.exec sysStartInv).returncode = 0)
    (hq : (host.exec (pgQueryInv b.user)).returncode ≠ 0)
    (s : HostState) :
    setup_postgresql host b s =
      (Except.ok (),
       { s with trace := s.trace ++ [sysEnableInv, sysStartInv,
                  pgQueryInv b.user],
                log := s.log ++ ["Setting up PostgreSQL...",
                  "Command failed: " ++
                    String.intercalate " " (pgQueryInv b.user).argv] }) := by
  unfold setup_postgresql
  simp only [bind_apply, tryCPE_apply,
    runCmd_ok host ["systemctl", "enable", "postgresql"] none none
      sysEnableInv rfl he,
    runCmd_ok host ["systemctl", "start", "postgresql"] none none
      sysStartInv rfl hs,
    runCmd_err host ["sudo", "-u", "postgres", "psql", "-t", "-c",
      roleQuerySQL b.user] none none (pgQueryInv b.user) rfl hq,
    logLine_apply, pure_apply]
  simp [List.append_assoc]

/-! ## Composition: the whole step sequence under per-step assumptions -/

theorem bootSteps_fwd_generic (host : Host) (b : RailsBootstrap)
    (eud : List String) (eutr : List Invocation) (eulg : List String)
    (heu : ∀ t : HostState, ensure_user host b t =
      (Except.ok (), { t with dirs := t.dirs ++ eud,
                              trace := t.trace ++ eutr,
                              log := t.log ++ eulg }))
    (hu : (host.exec aptUpdateInv).returncode = 0)
    (hi : (host.exec (aptInstallInv b)).returncode = 0)
    (fs0 : List (String × String))
    (hm : (fsRead fs0 (b.user_home ++ "/.local/bin/mise")).isSome = true)
    (hbrc : bashrcSatisfied (fsRead fs0 (b.user_home ++ "/.bashrc")) = true)
    (h1 : (host.exec (miseInstallInv host b "ruby@latest")).returncode = 0)
    (h2 : (host.exec (miseUseInv host b "ruby@latest")).returncode = 0)
    (h3 : (host.exec (miseInstallInv host b "node@lts")).returncode = 0)
    (h4 : (host.exec (miseUseInv host b "node@lts")).returncode = 0)
    (h5 : (host.exec (miseInstallInv host b "yarn@latest")).returncode = 0)
    (h6 : (host.exec (miseUseInv host b "yarn@latest")).returncode = 0)
    (pgtr : List Invocation) (pglg : List String)
    (hpg : ∀ t : HostState, setup_postgresql host b t =
      (Except.ok (), { t with trace := t.trace ++ pgtr,
                              log := t.log ++ pglg }))
    (hr : (host.exec (railsInv host b)).returncode = 0)
    (s : HostState) (hsfs : s.fs = fs0) :
    bootSteps host b s =
      (Except.ok (),
       { s with dirs := s.dirs ++ eud,
                trace := s.trace ++ eutr ++ [aptUpdateInv, aptInstallInv b,
                  miseInstallInv host b "ruby@latest",
                  miseUseInv host b "ruby@latest",
                  miseInstallInv host b "node@lts",
                  miseUseInv host b "node@lts",
                  miseInstallInv host b "yarn@latest",
                  miseUseInv host b "yarn@latest"] ++ pgtr ++
                  [railsInv host b],
                log := s.log ++ ["Starting Rails environment setup..."] ++
                  eulg ++ ["Installing packages...",
                    "Installing Ruby, Node.js, and Yarn..."] ++ pglg ++
                  ["Installing Rails...",
                   "✅ Setup complete! Switch to user: sudo su - " ++
                     b.user] }) := by
  unfold bootSteps
  simp only [bind_apply, logLine_apply, heu,
    install_packages_fwd host b hu hi,
    install_mise_fwd_present host b fs0 hm,
    setup_shell_fwd_marker host b fs0 hbrc,
    install_runtimes_fwd host b h1 h2 h3 h4 h5 h6,
    hpg, install_rails_fwd host b hr, pure_apply, hsfs]
  simp [List.append_assoc]

theorem bootRun_root (host : Host) (b : RailsBootstrap)
    (he : host.euid = 0) (s : HostState) :
    bootRun host b s = bootSteps host b s := by
  unfold bootRun
  rw [if_neg (by simp [he])]

theorem bootRun_nonroot (host : Host) (b : RailsBootstrap)
    (he : host.euid ≠ 0) (s : HostState) :
    bootRun host b s =
      (Except.error (BootErr.systemExit 1),
       { s with log := s.log ++ ["Run as root: sudo python3 setup.py"] }) := by
  unfold bootRun
  rw [if_pos he]
  rfl

theorem bootstrap_main_of_ok (host : Host) (s0 S : HostState)
    (he : host.euid = 0)
    (h : bootSteps host (RailsBootstrap.init host.sudoUser) s0 =
      (Except.ok (), S)) :
    bootstrap_main host s0 = (0, S) := by
  simp only [bootstrap_main]
  rw [bootRun_root host (RailsBootstrap.init host.sudoUser) he s0, h]

theorem bootstrap_main_of_err (host : Host) (s0 S : HostState)
    (c : CalledProcessError) (he : host.euid = 0)
    (h : bootSteps host (RailsBootstrap.init host.sudoUser) s0 =
      (Except.error (BootErr.calledProcessError c), S)) :
    bootstrap_main host s0 = (1, S) := by
  simp only [bootstrap_main]
  rw [bootRun_root host (RailsBootstrap.init host.sudoUser) he s0, h]

theorem bootstrap_main_nonroot (host : Host) (s0 : HostState)
    (he : host.euid ≠ 0) :
    bootstrap_main host s0 =
      (1, { s0 with
              log := s0.log ++ ["Run as root: sudo python3 setup.py"] }) := by
  simp only [bootstrap_main]
  rw [bootRun_nonroot host (RailsBootstrap.init host.sudoUser) he s0]

/-! ## The four concrete runs used by witnesses and counterexamples -/

theorem run_prov_eq :
    bootstrap_main provHost provState =
      (0,
       { provState with
          dirs := provState.dirs ++ [bUbuntu.user_home],
          trace := provState.trace ++ [idInv bUbuntu.user, chownHomeInv bUbuntu]
            ++ [aptUpdateInv, aptInstallInv bUbuntu,
                miseInstallInv provHost bUbuntu "ruby@latest",
                miseUseInv provHost bUbuntu "ruby@latest",
                miseInstallInv provHost bUbuntu "node@lts",
                miseUseInv provHost bUbuntu "node@lts",
                miseInstallInv provHost bUbuntu "yarn@latest",
                miseUseInv provHost bUbuntu "yarn@latest"]
            ++ [sysEnableInv, sysStartInv, pgQueryInv bUbuntu.user]
            ++ [railsInv provHost bUbuntu],
          log := provState.log ++ ["Starting Rails environment setup..."] ++ []
            ++ ["Installing packages...",
                "Installing Ruby, Node.js, and Yarn..."]
            ++ ["Setting up PostgreSQL..."]
            ++ ["Installing Rails...",
                "✅ Setup complete! Switch to user: sudo su - " ++
                  bUbuntu.user] }) := by
  refine bootstrap_main_of_ok provHost provState _ rfl ?_
  exact bootSteps_fwd_generic provHost bUbuntu
    [bUbuntu.user_home] [idInv bUbuntu.user, chownHomeInv bUbuntu] []
    (by intro t
        rw [ensure_user_fwd_exists provHost bUbuntu (by decide) (by decide) t]
        simp)
    (by decide) (by decide) provState.fs (by decide) (by decide)
    (by decide) (by decide) (by decide) (by decide) (by decide) (by decide)
    [sysEnableInv, sysStartInv, pgQueryInv bUbuntu.user]
    ["Setting up PostgreSQL..."]
    (setup_postgresql_fwd_present provHost bUbuntu (by decide) (by decide)
      (by decide) (by decide))
    (by decide) provState rfl

theorem run_qfail_eq :
    bootstrap_main qfailHost provState =
      (0,
       { provState with
          dirs := provState.dirs ++ [bUbuntu.user_home],
          trace := provState.trace ++ [idInv bUbuntu.user, chownHomeInv bUbuntu]
            ++ [aptUpdateInv, aptInstallInv bUbuntu,
                miseInstallInv qfailHost bUbuntu "ruby@latest",
                miseUseInv qfailHost bUbuntu "ruby@latest",
                miseInstallInv qfailHost bUbuntu "node@lts",
                miseUseInv qfailHost bUbuntu "node@lts",
                miseInstallInv qfailHost bUbuntu "yarn@latest",
                miseUseInv qfailHost bUbuntu "yarn@latest"]
            ++ [sysEnableInv, sysStartInv, pgQueryInv bUbuntu.user]
            ++ [railsInv qfailHost bUbuntu],
          log := provState.log ++ ["Starting Rails environment setup..."] ++ []
            ++ ["Installing packages...",
                "Installing Ruby, Node.js, and Yarn..."]
            ++ ["Setting up PostgreSQL...",
                "Command failed: " ++
                  String.intercalate " " (pgQueryInv bUbuntu.user).argv]
            ++ ["Installing Rails...",
                "✅ Setup complete! Switch to user: sudo su - " ++
                  bUbuntu.user] }) := by
  refine bootstrap_main_of_ok qfailHost provState _ rfl ?_
  exact bootSteps_fwd_generic qfailHost bUbuntu
    [bUbuntu.user_home] [idInv bUbuntu.user, chownHomeInv bUbuntu] []
    (by intro t
        rw [ensure_user_fwd_exists qfailHost bUbuntu (by decide) (by decide) t]
        simp)
    (by decide) (by decide) provState.fs (by decide) (by decide)
    (by decide) (by decide) (by decide) (by decide) (by decide) (by decide)
    [sysEnableInv, sysStartInv, pgQueryInv bUbuntu.user]
    ["Setting up PostgreSQL...",
     "Command failed: " ++ String.intercalate " " (pgQueryInv bUbuntu.user).argv]
    (setup_postgresql_fwd_query_fail qfailHost bUbuntu (by decide) (by decide)
      (by decide))
    (by decide) provState rfl

theorem run_idfail_eq :
    bootstrap_main idfailHost provState =
      (0,
       { provState with
          dirs := provState.dirs ++ [bUbuntu.user_home],
          trace := provState.trace ++ [idInv bUbuntu.user,
              useraddInv bUbuntu.user, usermodInv bUbuntu.user,
              chownHomeInv bUbuntu]
            ++ [aptUpdateInv, aptInstallInv bUbuntu,
                miseInstallInv idfailHost bUbuntu "ruby@latest",
                miseUseInv idfailHost bUbuntu "ruby@latest",
                miseInstallInv idfailHost bUbuntu "node@lts",
                miseUseInv idfailHost bUbuntu "node@lts",
                miseInstallInv idfailHost bUbuntu "yarn@latest",
                miseUseInv idfailHost bUbuntu "yarn@latest"]
            ++ [sysEnableInv, sysStartInv, pgQueryInv bUbuntu.user,
                pgCreateInv bUbuntu.user]
            ++ [railsInv idfailHost bUbuntu],
          log := provState.log ++ ["Starting Rails environment setup..."]
            ++ ["Command failed: " ++
                  String.intercalate " " (idInv bUbuntu.user).argv]
            ++ ["Installing packages...",
                "Installing Ruby, Node.js, and Yarn..."]
            ++ ["Setting up PostgreSQL..."]
            ++ ["Installing Rails...",
                "✅ Setup complete! Switch to user: sudo su - " ++
                  bUbuntu.user] }) := by
  refine bootstrap_main_of_ok idfailHost provState _ rfl ?_
  exact bootSteps_fwd_generic idfailHost bUbuntu
    [bUbuntu.user_home]
    [idInv bUbuntu.user, useraddInv bUbuntu.user, usermodInv bUbuntu.user,
     chownHomeInv bUbuntu]
    ["Command failed: " ++ String.intercalate " " (idInv bUbuntu.user).argv]
    (ensure_user_fwd_created idfailHost bUbuntu (by decide) (by decide)
      (by decide) (by decide))
    (by decide) (by decide) provState.fs (by decide) (by decide)
    (by decide) (by decide) (by decide) (by decide) (by decide) (by decide)
    [sysEnableInv, sysStartInv, pgQueryInv bUbuntu.user,
     pgCreateInv bUbuntu.user]
    ["Setting up PostgreSQL..."]
    (setup_postgresql_fwd_create_ok idfailHost bUbuntu (by decide) (by decide)
      (by decide) (by decide) (by decide))
    (by decide) provState rfl

theorem run_createfail_eq :
    bootstrap_main createFailHost provState =
      (0,
       { provState with
          dirs := provState.dirs ++ [bUbuntu.user_home],
          trace := provState.trace ++ [idInv bUbuntu.user, chownHomeInv bUbuntu]
            ++ [aptUpdateInv, aptInstallInv bUbuntu,
                miseInstallInv createFailHost bUbuntu "ruby@latest",
                miseUseInv createFailHost bUbuntu "ruby@latest",
                miseInstallInv createFailHost bUbuntu "node@lts",
                miseUseInv createFailHost bUbuntu "node@lts",
                miseInstallInv createFailHost bUbuntu "yarn@latest",
                miseUseInv createFailHost bUbuntu "yarn@latest"]
            ++ [sysEnableInv, sysStartInv, pgQueryInv bUbuntu.user,
                pgCreateInv bUbuntu.user]
            ++ [railsInv createFailHost bUbuntu],
          log := provState.log ++ ["Starting Rails environment setup..."] ++ []
            ++ ["Installing packages...",
                "Installing Ruby, Node.js, and Yarn..."]
            ++ ["Setting up PostgreSQL...",
                "Command failed: " ++
                  String.intercalate " " (pgCreateInv bUbuntu.user).argv]
            ++ ["Installing Rails...",
                "✅ Setup complete! Switch to user: sudo su - " ++
                  bUbuntu.user] }) := by
  refine bootstrap_main_of_ok createFailHost provState _ rfl ?_
  exact bootSteps_fwd_generic createFailHost bUbuntu
    [bUbuntu.user_home] [idInv bUbuntu.user, chownHomeInv bUbuntu] []
    (by intro t
        rw [ensure_user_fwd_exists createFailHost bUbuntu (by decide)
          (by decide) t]
        simp)
    (by decide) (by decide) provState.fs (by decide) (by decide)
    (by decide) (by decide) (by decide) (by decide) (by decide) (by decide)
    [sysEnableInv, sysStartInv, pgQueryInv bUbuntu.user,
     pgCreateInv bUbuntu.user]
    ["Setting up PostgreSQL...",
     "Command failed: " ++
       String.intercalate " " (pgCreateInv bUbuntu.user).argv]
    (setup_postgresql_fwd_create_fail createFailHost bUbuntu (by decide)
      (by decide) (by decide) (by decide) (by decide))
    (by decide) provState rfl

/-! ## Combinators for the trace predicates -/

theorem TraceSpec_of_preserve {α : Type} (host : Host) (G : List Invocation)
    (x : BootM α) (hok : ∀ s, ∃ a, (x s).1 = Except.ok a)
    (htr : ∀ s, (x s).2.trace = s.trace) : TraceSpec host G x := by
  intro s
  refine ⟨[], by simp [htr s], fun _ inv hinv => absurd hinv (by simp), ?_⟩
  rintro ⟨e, he⟩
  obtain ⟨a, ha⟩ := hok s
  rw [ha] at he
  exact Except.noConfusion he

theorem TraceSpec_pure {α : Type} (host : Host) (G : List Invocation)
    (a : α) : TraceSpec host G (pure a : BootM α) :=
  TraceSpec_of_preserve host G _ (fun s => ⟨a, rfl⟩) (fun _ => rfl)

theorem TraceSpec_logLine (host : Host) (G : List Invocation) (m : String) :
    TraceSpec host G (logLine m) :=
  TraceSpec_of_preserve host G _ (fun s => ⟨(), rfl⟩) (fun _ => rfl)

theorem TraceSpec_mkdirP (host : Host) (G : List Invocation) (p : String) :
    TraceSpec host G (mkdirP p) :=
  TraceSpec_of_preserve host G _ (fun s => ⟨(), rfl⟩) (fun _ => rfl)

theorem TraceSpec_readFileM (host : Host) (G : List Invocation) (p : String) :
    TraceSpec host G (readFileM p) :=
  TraceSpec_of_preserve host G _ (fun s => ⟨_, rfl⟩) (fun _ => rfl)

theorem TraceSpec_pathExistsM (host : Host) (G : List Invocation)
    (p : String) : TraceSpec host G (pathExistsM p) :=
  TraceSpec_of_preserve host G _ (fun s => ⟨_, rfl⟩) (fun _ => rfl)

theorem TraceSpec_appendFileM (host : Host) (G : List Invocation)
    (p c : String) : TraceSpec host G (appendFileM p c) :=
  TraceSpec_of_preserve host G _ (fun s => ⟨(), rfl⟩) (fun _ => rfl)

theorem TraceSpec_bind {α β : Type} {host : Host} {G : List Invocation}
    {x : BootM α} {f : α → BootM β} (hx : TraceSpec host G x)
    (hf : ∀ a, TraceSpec host G (f a)) : TraceSpec host G (x >>= f) := by
  intro s
  obtain ⟨nx, htx, hokx, herrx⟩ := hx s
  rcases hres : x s with ⟨r, s1⟩
  rw [hres] at htx hokx herrx
  cases r with
  | ok a =>
    obtain ⟨nf, htf, hokf, herrf⟩ := hf a s1
    refine ⟨nx ++ nf, ?_, ?_, ?_⟩
    · simp only [bind_apply, hres]
      rw [htf, htx, List.append_assoc]
    · rintro ⟨b, hb⟩ inv hinv
      simp only [bind_apply, hres] at hb
      rcases List.mem_append.1 hinv with h | h
      · exact hokx ⟨a, rfl⟩ inv h
      · exact hokf ⟨b, hb⟩ inv h
    · rintro ⟨e, he⟩
      simp only [bind_apply, hres] at he
      obtain ⟨pre, last, hnf, hlast, hpre⟩ := herrf ⟨e, he⟩
      refine ⟨nx ++ pre, last, by rw [hnf, List.append_assoc], hlast, ?_⟩
      intro inv hinv
      rcases List.mem_append.1 hinv with h | h
      · exact hokx ⟨a, rfl⟩ inv h
      · exact hpre inv h
  | error e =>
    refine ⟨nx, ?_, ?_, ?_⟩
    · simp only [bind_apply, hres]
      exact htx
    · rintro ⟨b, hb⟩
      simp only [bind_apply, hres] at hb
      exact Except.noConfusion hb
    · rintro ⟨e2, he2⟩
      exact herrx ⟨e, rfl⟩

theorem TraceSpec_runCmd (host : Host) (G : List Invocation)
    (cmd0 : List String) (user : Option String) (env : Option EnvMap) :
    TraceSpec host G (runCmd host cmd0 user env) := by
  intro s
  by_cases h :
      (host.exec (Invocation.mk (applyUserWrapper user cmd0) env)).returncode
        = 0
  · rw [runCmd_ok host cmd0 user env _ rfl h s]
    refine ⟨[⟨applyUserWrapper user cmd0, env⟩], rfl, ?_, ?_⟩
    · intro _ inv hinv
      rw [List.mem_singleton] at hinv
      subst hinv
      exact Or.inl h
    · rintro ⟨e, he⟩
      exact Except.noConfusion he
  · rw [runCmd_err host cmd0 user env _ rfl h s]
    refine ⟨[⟨applyUserWrapper user cmd0, env⟩], rfl, ?_, ?_⟩
    · rintro ⟨a, ha⟩
      exact Except.noConfusion ha
    · rintro ⟨e, he⟩
      exact ⟨[], ⟨applyUserWrapper user cmd0, env⟩, rfl, h, by simp⟩

theorem TraceSpec_ite {α : Type} {host : Host} {G : List Invocation}
    {c : Prop} [Decidable c] {x y : BootM α} (hx : TraceSpec host G x)
    (hy : TraceSpec host G y) : TraceSpec host G (if c then x else y) := by
  by_cases h : c
  · simpa [h] using hx
  · simpa [h] using hy

theorem GuardedOnly_pure {α : Type} (G : List Invocation) (a : α) :
    GuardedOnly G (pure a : BootM α) :=
  fun s => ⟨[], by simp [pure_apply], by simp⟩

theorem GuardedOnly_bind {α β : Type} {G : List Invocation} {x : BootM α}
    {f : α → BootM β} (hx : GuardedOnly G x)
    (hf : ∀ a, GuardedOnly G (f a)) : GuardedOnly G (x >>= f) := by
  intro s
  obtain ⟨nx, htx, hgx⟩ := hx s
  rcases hres : x s with ⟨r, s1⟩
  rw [hres] at htx
  cases r with
  | ok a =>
    obtain ⟨nf, htf, hgf⟩ := hf a s1
    refine ⟨nx ++ nf, ?_, ?_⟩
    · simp only [bind_apply, hres]
      rw [htf, htx, List.append_assoc]
    · intro inv hinv
      rcases List.mem_append.1 hinv with h | h
      · exact hgx inv h
      · exact hgf inv h
  | error e =>
    refine ⟨nx, ?_, hgx⟩
    simp only [bind_apply, hres]
    exact htx

theorem GuardedOnly_runCmd (host : Host) (G : List Invocation)
    (cmd0 : List String) (user : Option String) (env : Option EnvMap)
    (hmem : Invocation.mk (applyUserWrapper user cmd0) env ∈ G) :
    GuardedOnly G (runCmd host cmd0 user env) := by
  intro s
  refine ⟨[⟨applyUserWrapper user cmd0, env⟩], ?_, ?_⟩
  · by_cases h :
        (host.exec
          (Invocation.mk (applyUserWrapper user cmd0) env)).returncode = 0
    · rw [runCmd_ok host cmd0 user env _ rfl h s]
    · rw [runCmd_err host cmd0 user env _ rfl h s]
  · intro inv hinv
    rw [List.mem_singleton] at hinv
    subst hinv
    exact hmem

theorem GuardedOnly_ite {α : Type} {G : List Invocation} {c : Prop}
    [Decidable c] {x y : BootM α} (hx : GuardedOnly G x)
    (hy : GuardedOnly G y) : GuardedOnly G (if c then x else y) := by
  by_cases h : c
  · simpa [h] using hx
  · simpa [h] using hy

theorem CPEOnly_of_ok {α : Type} (x : BootM α)
    (hok : ∀ s, ∃ a, (x s).1 = Except.ok a) : CPEOnly x := by
  intro s e he
  obtain ⟨a, ha⟩ := hok s
  rw [ha] at he
  exact Except.noConfusion he

theorem CPEOnly_pure {α : Type} (a : α) : CPEOnly (pure a : BootM α) :=
  CPEOnly_of_ok _ (fun s => ⟨a, rfl⟩)

theorem CPEOnly_bind {α β : Type} {x : BootM α} {f : α → BootM β}
    (hx : CPEOnly x) (hf : ∀ a, CPEOnly (f a)) : CPEOnly (x >>= f) := by
  intro s e he
  rcases hres : x s with ⟨r, s1⟩
  simp only [bind_apply, hres] at he
  cases r with
  | ok a => exact hf a s1 e he
  | error e0 =>
    obtain ⟨c, hc⟩ := hx s e0 (by rw [hres])
    cases he
    exact ⟨c, hc⟩

theorem CPEOnly_runCmd (host : Host) (cmd0 : List String)
    (user : Option String) (env : Option EnvMap) :
    CPEOnly (runCmd host cmd0 user env) := by
  intro s e he
  by_cases h :
      (host.exec
        (Invocation.mk (applyUserWrapper user cmd0) env)).returncode = 0
  · rw [runCmd_ok host cmd0 user env _ rfl h s] at he
    exact Except.noConfusion he
  · rw [runCmd_err host cmd0 user env _ rfl h s] at he
    exact ⟨_, (Except.error.inj he).symm⟩

theorem CPEOnly_ite {α : Type} {c : Prop} [Decidable c] {x y : BootM α}
    (hx : CPEOnly x) (hy : CPEOnly y) : CPEOnly (if c then x else y) := by
  by_cases h : c
  · simpa [h] using hx
  · simpa [h] using hy

theorem CPEOnly_tryCPE {α : Type} {body handler : BootM α}
    (hb : CPEOnly body) (hh : CPEOnly handler) :
    CPEOnly (tryCPE body handler) := by
  intro s e he
  rw [tryCPE_apply] at he
  rcases hres : body s with ⟨r, s1⟩
  rw [hres] at he
  cases r with
  | ok a => exact Except.noConfusion he
  | error e0 =>
    obtain ⟨c, hc⟩ := hb s e0 (by rw [hres])
    subst hc
    exact hh s1 e he

theorem CPEOnly_logLine (m : String) : CPEOnly (logLine m) :=
  CPEOnly_of_ok _ (fun s => ⟨(), rfl⟩)

theorem CPEOnly_mkdirP (p : String) : CPEOnly (mkdirP p) :=
  CPEOnly_of_ok _ (fun s => ⟨(), rfl⟩)

theorem CPEOnly_readFileM (p : String) : CPEOnly (readFileM p) :=
  CPEOnly_of_ok _ (fun s => ⟨_, rfl⟩)

theorem CPEOnly_pathExistsM (p : String) : CPEOnly (pathExistsM p) :=
  CPEOnly_of_ok _ (fun s => ⟨_, rfl⟩)

theorem CPEOnly_appendFileM (p c : String) : CPEOnly (appendFileM p c) :=
  CPEOnly_of_ok _ (fun s => ⟨(), rfl⟩)

theorem TraceSpec_tryCPE {α : Type} {host : Host} {G : List Invocation}
    {body handler : BootM α} (hb : GuardedOnly G body) (hbc : CPEOnly body)
    (hh : TraceSpec host G handler) :
    TraceSpec host G (tryCPE body handler) := by
  intro s
  obtain ⟨nb, htb, hgb⟩ := hb s
  rcases hres : body s with ⟨r, s1⟩
  rw [hres] at htb
  cases r with
  | ok a =>
    refine ⟨nb, ?_, ?_, ?_⟩
    · simp only [tryCPE_apply, hres]
      exact htb
    · intro _ inv hinv
      exact Or.inr (hgb inv hinv)
    · rintro ⟨e, he⟩
      simp only [tryCPE_apply, hres] at he
      exact Except.noConfusion he
  | error e0 =>
    obtain ⟨c, hc⟩ := hbc s e0 (by rw [hres])
    subst hc
    obtain ⟨nh, hth, hokh, herrh⟩ := hh s1
    refine ⟨nb ++ nh, ?_, ?_, ?_⟩
    · simp only [tryCPE_apply, hres]
      rw [hth, htb, List.append_assoc]
    · rintro ⟨a, ha⟩ inv hinv
      simp only [tryCPE_apply, hres] at ha
      rcases List.mem_append.1 hinv with h | h
      · exact Or.inr (hgb inv h)
      · exact hokh ⟨a, ha⟩ inv h
    · rintro ⟨e, he⟩
      simp only [tryCPE_apply, hres] at he
      obtain ⟨pre, last, hnh, hlast, hpre⟩ := herrh ⟨e, he⟩
      refine ⟨nb ++ pre, last, by rw [hnh, List.append_assoc], hlast, ?_⟩
      intro inv hinv
      rcases List.mem_append.1 hinv with h | h
      · exact Or.inr (hgb inv h)
      · exact hpre inv h

/-! ## Trace discipline of each step and of the whole sequence -/

theorem CPEOnly_install_runtimes_loop (host : Host) (b : RailsBootstrap)
    (env : EnvMap) :
    ∀ rs : List String, CPEOnly (install_runtimes_loop host b env rs)
  | [] => CPEOnly_pure ()
  | r :: rest => by
    unfold install_runtimes_loop
    exact CPEOnly_bind (CPEOnly_runCmd host _ _ _) (fun _ =>
      CPEOnly_bind (CPEOnly_runCmd host _ _ _) (fun _ =>
        CPEOnly_install_runtimes_loop host b env rest))

theorem CPEOnly_ensure_user (host : Host) (b : RailsBootstrap) :
    CPEOnly (ensure_user host b) := by
  unfold ensure_user
  refine CPEOnly_bind (CPEOnly_tryCPE ?_ ?_) (fun _ => ?_)
  · exact CPEOnly_bind (CPEOnly_runCmd host _ _ _) (fun _ => CPEOnly_pure ())
  · exact CPEOnly_bind (CPEOnly_runCmd host _ _ _) (fun _ =>
      CPEOnly_bind (CPEOnly_runCmd host _ _ _) (fun _ => CPEOnly_pure ()))
  · exact CPEOnly_bind (CPEOnly_mkdirP _) (fun _ =>
      CPEOnly_bind (CPEOnly_runCmd host _ _ _) (fun _ => CPEOnly_pure ()))

theorem CPEOnly_install_packages (host : Host) (b : RailsBootstrap) :
    CPEOnly (install_packages host b) := by
  unfold install_packages
  exact CPEOnly_bind (CPEOnly_logLine _) (fun _ =>
    CPEOnly_bind (CPEOnly_runCmd host _ _ _) (fun _ =>
      CPEOnly_bind (CPEOnly_runCmd host _ _ _) (fun _ => CPEOnly_pure ())))

theorem CPEOnly_install_mise (host : Host) (b : RailsBootstrap) :
    CPEOnly (install_mise host b) := by
  unfold install_mise
  refine CPEOnly_bind (CPEOnly_pathExistsM _) (fun present => ?_)
  refine CPEOnly_ite (CPEOnly_pure ()) ?_
  exact CPEOnly_bind (CPEOnly_logLine _) (fun _ =>
    CPEOnly_bind (CPEOnly_mkdirP _) (fun _ =>
      CPEOnly_bind (CPEOnly_runCmd host _ _ _) (fun _ =>
        CPEOnly_bind (CPEOnly_runCmd host _ _ _) (fun _ =>
          CPEOnly_pure ()))))

theorem CPEOnly_setup_shell (host : Host) (b : RailsBootstrap) :
    CPEOnly (setup_shell host b) := by
  unfold setup_shell
  refine CPEOnly_bind (CPEOnly_readFileM _) (fun content => ?_)
  refine CPEOnly_ite (CPEOnly_pure ()) ?_
  exact CPEOnly_bind (CPEOnly_appendFileM _ _) (fun _ =>
    CPEOnly_bind (CPEOnly_runCmd host _ _ _) (fun _ => CPEOnly_pure ()))

theorem CPEOnly_install_runtimes (host : Host) (b : RailsBootstrap) :
    CPEOnly (install_runtimes host b) := by
  unfold install_runtimes
  exact CPEOnly_bind (CPEOnly_logLine _) (fun _ =>
    CPEOnly_install_runtimes_loop host b (userEnv host b) _)

theorem CPEOnly_setup_postgresql (host : Host) (b : RailsBootstrap) :
    CPEOnly (setup_postgresql host b) := by
  unfold setup_postgresql
  refine CPEOnly_bind (CPEOnly_logLine _) (fun _ => ?_)
  refine CPEOnly_bind (CPEOnly_runCmd host _ _ _) (fun _ => ?_)
  refine CPEOnly_bind (CPEOnly_runCmd host _ _ _) (fun _ => ?_)
  refine CPEOnly_tryCPE ?_ (CPEOnly_pure ())
  refine CPEOnly_bind (CPEOnly_runCmd host _ _ _) (fun result => ?_)
  exact CPEOnly_ite (CPEOnly_pure ())
    (CPEOnly_bind (CPEOnly_runCmd host _ _ _) (fun _ => CPEOnly_pure ()))

theorem CPEOnly_install_rails (host : Host) (b : RailsBootstrap) :
    CPEOnly (install_rails host b) := by
  unfold install_rails
  exact CPEOnly_bind (CPEOnly_logLine _) (fun _ =>
    CPEOnly_bind (CPEOnly_runCmd host _ _ _) (fun _ => CPEOnly_pure ()))

theorem CPEOnly_bootSteps (host : Host) (b : RailsBootstrap) :
    CPEOnly (bootSteps host b) := by
  unfold bootSteps
  exact CPEOnly_bind (CPEOnly_logLine _) (fun _ =>
    CPEOnly_bind (CPEOnly_ensure_user host b) (fun _ =>
      CPEOnly_bind (CPEOnly_install_packages host b) (fun _ =>
        CPEOnly_bind (CPEOnly_install_mise host b) (fun _ =>
          CPEOnly_bind (CPEOnly_setup_shell host b) (fun _ =>
            CPEOnly_bind (CPEOnly_install_runtimes host b) (fun _ =>
              CPEOnly_bind (CPEOnly_setup_postgresql host b) (fun _ =>
                CPEOnly_bind (CPEOnly_install_rails host b) (fun _ =>
                  CPEOnly_logLine _))))))))

theorem TraceSpec_install_runtimes_loop (host : Host) (b : RailsBootstrap)
    (env : EnvMap) :
    ∀ rs : List String,
      TraceSpec host (guardedInvs b.user) (install_runtimes_loop host b env rs)
  | [] => TraceSpec_pure host _ ()
  | r :: rest => by
    unfold install_runtimes_loop
    exact TraceSpec_bind (TraceSpec_runCmd host _ _ _ _) (fun _ =>
      TraceSpec_bind (TraceSpec_runCmd host _ _ _ _) (fun _ =>
        TraceSpec_install_runtimes_loop host b env rest))

theorem TraceSpec_ensure_user (host : Host) (b : RailsBootstrap) :
    TraceSpec host (guardedInvs b.user) (ensure_user host b) := by
  unfold ensure_user
  refine TraceSpec_bind (TraceSpec_tryCPE ?_ ?_ ?_) (fun _ => ?_)
  · refine GuardedOnly_bind (GuardedOnly_runCmd host _ _ _ _ ?_) (fun _ =>
      GuardedOnly_pure _ ())
    simp [guardedInvs, idInv, applyUserWrapper]
  · exact CPEOnly_bind (CPEOnly_runCmd host _ _ _) (fun _ => CPEOnly_pure ())
  · exact TraceSpec_bind (TraceSpec_runCmd host _ _ _ _) (fun _ =>
      TraceSpec_bind (TraceSpec_runCmd host _ _ _ _) (fun _ =>
        TraceSpec_pure host _ ()))
  · exact TraceSpec_bind (TraceSpec_mkdirP host _ _) (fun _ =>
      TraceSpec_bind (TraceSpec_runCmd host _ _ _ _) (fun _ =>
        TraceSpec_pure host _ ()))

theorem TraceSpec_install_packages (host : Host) (b : RailsBootstrap) :
    TraceSpec host (guardedInvs b.user) (install_packages host b) := by
  unfold install_packages
  exact TraceSpec_bind (TraceSpec_logLine host _ _) (fun _ =>
    TraceSpec_bind (TraceSpec_runCmd host _ _ _ _) (fun _ =>
      TraceSpec_bind (TraceSpec_runCmd host _ _ _ _) (fun _ =>
        TraceSpec_pure host _ ())))

theorem TraceSpec_install_mise (host : Host) (b : RailsBootstrap) :
    TraceSpec host (guardedInvs b.user) (install_mise host b) := by
  unfold install_mise
  refine TraceSpec_bind (TraceSpec_pathExistsM host _ _) (fun present => ?_)
  refine TraceSpec_ite (TraceSpec_pure host _ ()) ?_
  exact TraceSpec_bind (TraceSpec_logLine host _ _) (fun _ =>
    TraceSpec_bind (TraceSpec_mkdirP host _ _) (fun _ =>
      TraceSpec_bind (TraceSpec_runCmd host _ _ _ _) (fun _ =>
        TraceSpec_bind (TraceSpec_runCmd host _ _ _ _) (fun _ =>
          TraceSpec_pure host _ ()))))

theorem TraceSpec_setup_shell (host : Host) (b : RailsBootstrap) :
    TraceSpec host (guardedInvs b.user) (setup_shell host b) := by
  unfold setup_shell
  refine TraceSpec_bind (TraceSpec_readFileM host _ _) (fun content => ?_)
  refine TraceSpec_ite (TraceSpec_pure host _ ()) ?_
  exact TraceSpec_bind (TraceSpec_appendFileM host _ _ _) (fun _ =>
    TraceSpec_bind (TraceSpec_runCmd host _ _ _ _) (fun _ =>
      TraceSpec_pure host _ ()))

theorem TraceSpec_install_runtimes (host : Host) (b : RailsBootstrap) :
    TraceSpec host (guardedInvs b.user) (install_runtimes host b) := by
  unfold install_runtimes
  exact TraceSpec_bind (TraceSpec_logLine host _ _) (fun _ =>
    TraceSpec_install_runtimes_loop host b (userEnv host b) _)

theorem TraceSpec_setup_postgresql (host : Host) (b : RailsBootstrap) :
    TraceSpec host (guardedInvs b.user) (setup_postgresql host b) := by
  unfold setup_postgresql
  refine TraceSpec_bind (TraceSpec_logLine host _ _) (fun _ => ?_)
  refine TraceSpec_bind (TraceSpec_runCmd host _ _ _ _) (fun _ => ?_)
  refine TraceSpec_bind (TraceSpec_runCmd host _ _ _ _) (fun _ => ?_)
  refine TraceSpec_tryCPE ?_ ?_ (TraceSpec_pure host _ ())
  · refine GuardedOnly_bind (GuardedOnly_runCmd host _ _ _ _ ?_)
      (fun result => ?_)
    · simp [guardedInvs, pgQueryInv, applyUserWrapper]
    · refine GuardedOnly_ite (GuardedOnly_pure _ ()) ?_
      refine GuardedOnly_bind (GuardedOnly_runCmd host _ _ _ _ ?_) (fun _ =>
        GuardedOnly_pure _ ())
      simp [guardedInvs, pgCreateInv, applyUserWrapper]
  · refine CPEOnly_bind (CPEOnly_runCmd host _ _ _) (fun result => ?_)
    exact CPEOnly_ite (CPEOnly_pure ())
      (CPEOnly_bind (CPEOnly_runCmd host _ _ _) (fun _ => CPEOnly_pure ()))

theorem TraceSpec_install_rails (host : Host) (b : RailsBootstrap) :
    TraceSpec host (guardedInvs b.user) (install_rails host b) := by
  unfold install_rails
  exact TraceSpec_bind (TraceSpec_logLine host _ _) (fun _ =>
    TraceSpec_bind (TraceSpec_runCmd host _ _ _ _) (fun _ =>
      TraceSpec_pure host _ ()))

theorem TraceSpec_bootSteps (host : Host) (b : RailsBootstrap) :
    TraceSpec host (guardedInvs b.user) (bootSteps host b) := by
  unfold bootSteps
  exact TraceSpec_bind (TraceSpec_logLine host _ _) (fun _ =>
    TraceSpec_bind (TraceSpec_ensure_user host b) (fun _ =>
      TraceSpec_bind (TraceSpec_install_packages host b) (fun _ =>
        TraceSpec_bind (TraceSpec_install_mise host b) (fun _ =>
          TraceSpec_bind (TraceSpec_setup_shell host b) (fun _ =>
            TraceSpec_bind (TraceSpec_install_runtimes host b) (fun _ =>
              TraceSpec_bind (TraceSpec_setup_postgresql host b) (fun _ =>
                TraceSpec_bind (TraceSpec_install_rails host b) (fun _ =>
                  TraceSpec_logLine host _ _))))))))

theorem run_trace_discipline (host : Host) (s0 : HostState)
    (he : host.euid = 0) :
    ∃ new : List Invocation,
      (bootstrap_main host s0).2.trace = s0.trace ++ new ∧
      ((bootstrap_main host s0).1 = 0 →
        ∀ inv ∈ new, okOrGuarded host
          (guardedInvs (RailsBootstrap.init host.sudoUser).user) inv) ∧
      ((bootstrap_main host s0).1 ≠ 0 →
        ∃ pre last, new = pre ++ [last] ∧
          (host.exec last).returncode ≠ 0 ∧
          ∀ inv ∈ pre, okOrGuarded host
            (guardedInvs (RailsBootstrap.init host.sudoUser).user) inv) := by
  obtain ⟨new, htr, hok, herr⟩ :=
    TraceSpec_bootSteps host (RailsBootstrap.init host.sudoUser) s0
  have hmain : bootstrap_main host s0 =
      (match bootSteps host (RailsBootstrap.init host.sudoUser) s0 with
       | (Except.ok _, s) => (0, s)
       | (Except.error (BootErr.systemExit c), s) => (c, s)
       | (Except.error (BootErr.calledProcessError _), s) => (1, s)) := by
    simp only [bootstrap_main]
    rw [bootRun_root host (RailsBootstrap.init host.sudoUser) he s0]
  rcases hres : bootSteps host (RailsBootstrap.init host.sudoUser) s0
    with ⟨r, S⟩
  rw [hres] at htr hok herr hmain
  cases r with
  | ok a =>
    refine ⟨new, ?_, ?_, ?_⟩
    · rw [hmain]
      exact htr
    · intro _
      exact hok ⟨a, rfl⟩
    · intro hne
      exact absurd (by rw [hmain]) hne
  | error e =>
    obtain ⟨c, hc⟩ := CPEOnly_bootSteps host (RailsBootstrap.init host.sudoUser)
      s0 e (by rw [hres])
    subst hc
    refine ⟨new, ?_, ?_, ?_⟩
    · rw [hmain]
      exact htr
    · intro h0
      rw [hmain] at h0
      exact absurd h0 (by simp)
    · intro _
      exact herr ⟨BootErr.calledProcessError c, rfl⟩

/-! ## Filesystem lemmas for the append-only shell configuration -/

theorem fsRead_fsSet_self (fs : List (String × String)) (p c : String) :
    fsRead (fsSet fs p c) p = some c := by
  induction fs with
  | nil => simp [fsSet, fsRead]
  | cons kv rest ih =>
    by_cases h : kv.1 = p
    · simp [fsSet, fsRead, h]
    · simp [fsSet, fsRead, h, ih]

theorem fsRead_append_of_none (fs l : List (String × String)) (p : String)
    (h : fsRead fs p = none) : fsRead (fs ++ l) p = fsRead l p := by
  induction fs with
  | nil => simp
  | cons kv rest ih =>
    by_cases hq : kv.1 = p
    · rw [fsRead] at h
      simp [hq] at h
    · rw [fsRead] at h
      simp [hq] at h
      simpa [fsRead, hq] using ih h

theorem fsRead_fsAppend_self (fs : List (String × String)) (p c : String) :
    fsRead (fsAppend fs p c) p =
      some ((fsRead fs p).getD "" ++ c) := by
  unfold fsAppend
  cases hr : fsRead fs p with
  | some old => simp [fsRead_fsSet_self]
  | none =>
    rw [fsRead_append_of_none fs _ p hr]
    simp [fsRead]

theorem setup_shell_fs_append (host : Host) (b : RailsBootstrap)
    (t : HostState)
    (hsat : bashrcSatisfied (fsRead t.fs (b.user_home ++ "/.bashrc")) =
      false) :
    ((setup_shell host b t).2).fs =
      fsAppend t.fs (b.user_home ++ "/.bashrc") miseConfig := by
  unfold setup_shell
  simp only [bind_apply, readFileM_apply, hsat]
  have hcond : (false = true) = False := by simp
  simp only [hcond, if_false]
  by_cases h : (host.exec (chownBashrcInv b)).returncode = 0
  · simp only [bind_apply, appendFileM_apply,
      runCmd_ok host ["chown", b.user ++ ":" ++ b.user,
        b.user_home ++ "/.bashrc"] none none (chownBashrcInv b) rfl h,
      pure_apply]
  · simp only [bind_apply, appendFileM_apply,
      runCmd_err host ["chown", b.user ++ ":" ++ b.user,
        b.user_home ++ "/.bashrc"] none none (chownBashrcInv b) rfl h,
      pure_apply]

/-! ## Trace recording and sequential decomposition -/

theorem runCmd_trace (host : Host) (cmd0 : List String)
    (user : Option String) (env : Option EnvMap) (s : HostState) :
    (runCmd host cmd0 user env s).2.trace =
      s.trace ++ [Invocation.mk (applyUserWrapper user cmd0) env] := by
  by_cases h :
      (host.exec (Invocation.mk (applyUserWrapper user cmd0) env)).returncode
        = 0
  · rw [runCmd_ok host cmd0 user env _ rfl h s]
  · rw [runCmd_err host cmd0 user env _ rfl h s]

theorem bind_ok_decompose {α β : Type} {x : BootM α} {f : α → BootM β}
    {s sf : HostState} {bv : β}
    (h : (x >>= f) s = (Except.ok bv, sf)) :
    ∃ a s1, x s = (Except.ok a, s1) ∧ f a s1 = (Except.ok bv, sf) := by
  rcases hres : x s with ⟨r, s1⟩
  cases r with
  | ok a =>
    refine ⟨a, s1, rfl, ?_⟩
    rw [bind_apply, hres] at h
    exact h
  | error e =>
    rw [bind_apply, hres] at h
    exact absurd h (by simp)

theorem bootSteps_ok_decompose (host : Host) (b : RailsBootstrap)
    (s0 S : HostState) (h : bootSteps host b s0 = (Except.ok (), S)) :
    ∃ s1 s2 s3 s4 s5 s6 s7 : HostState,
      ensure_user host b
        { s0 with log := s0.log ++ ["Starting Rails environment setup..."] } =
          (Except.ok (), s1) ∧
      install_packages host b s1 = (Except.ok (), s2) ∧
      install_mise host b s2 = (Except.ok (), s3) ∧
      setup_shell host b s3 = (Except.ok (), s4) ∧
      install_runtimes host b s4 = (Except.ok (), s5) ∧
      setup_postgresql host b s5 = (Except.ok (), s6) ∧
      install_rails host b s6 = (Except.ok (), s7) ∧
      S = { s7 with log := s7.log ++
        ["✅ Setup complete! Switch to user: sudo su - " ++ b.user] } := by
  unfold bootSteps at h
  rw [seq_logLine] at h
  obtain ⟨a1, s1, h1, h⟩ := bind_ok_decompose h
  cases a1
  obtain ⟨a2, s2, h2, h⟩ := bind_ok_decompose h
  cases a2
  obtain ⟨a3, s3, h3, h⟩ := bind_ok_decompose h
  cases a3
  obtain ⟨a4, s4, h4, h⟩ := bind_ok_decompose h
  cases a4
  obtain ⟨a5, s5, h5, h⟩ := bind_ok_decompose h
  cases a5
  obtain ⟨a6, s6, h6, h⟩ := bind_ok_decompose h
  cases a6
  obtain ⟨a7, s7, h7, h⟩ := bind_ok_decompose h
  cases a7
  rw [logLine_apply] at h
  refine ⟨s1, s2, s3, s4, s5, s6, s7, h1, h2, h3, h4, h5, h6, h7, ?_⟩
  injection h with hfst hsnd
  exact hsnd.symm

/-! ## Claim C1 -/

/-- Claim C1 as stated is false: on a host where the role-existence query
command fails and every other command succeeds, the run is indeed not
aborted (exit status 0), but the role-creation command is never attempted —
the `try` block wraps both the query and the creation, so the caught
exception skips the creation entirely. -/
theorem C1_counterexample :
    (qfailHost.exec (pgQueryInv "ubuntu")).returncode ≠ 0 ∧
    (bootstrap_main qfailHost provState).1 = 0 ∧
    pgQueryInv "ubuntu" ∈ (bootstrap_main qfailHost provState).2.trace ∧
    pgCreateInv "ubuntu" ∉ (bootstrap_main qfailHost provState).2.trace := by
  rw [run_qfail_eq]
  exact ⟨by decide, rfl, by decide, by decide⟩

/-- Claim C1 (amended): if the database role-existence query command exits
non-zero (the systemctl commands having succeeded), the database step
absorbs the failure and returns success — the orchestrator does not abort
the run — but the role-creation action is skipped, not attempted: the step
invokes exactly the two systemctl commands and the failed query, and the
creation invocation is not among them. -/
theorem C1_query_failure_skips_creation (host : Host) (b : RailsBootstrap)
    (s : HostState)
    (he : (host.exec sysEnableInv).returncode = 0)
    (hs : (host.exec sysStartInv).returncode = 0)
    (hq : (host.exec (pgQueryInv b.user)).returncode ≠ 0) :
    setup_postgresql host b s =
      (Except.ok (),
       { s with trace := s.trace ++ [sysEnableInv, sysStartInv,
                  pgQueryInv b.user],
                log := s.log ++ ["Setting up PostgreSQL...",
                  "Command failed: " ++
                    String.intercalate " " (pgQueryInv b.user).argv] }) ∧
    pgCreateInv b.user ∉ [sysEnableInv, sysStartInv, pgQueryInv b.user] := by
  refine ⟨setup_postgresql_fwd_query_fail host b he hs hq s, ?_⟩
  simp [pgCreateInv, pgQueryInv, sysEnableInv, sysStartInv]

/-- Witness for the amended claim C1 at a concrete host. -/
theorem C1_query_failure_skips_creation_witness :
    setup_postgresql qfailHost bUbuntu emptyState =
      (Except.ok (),
       { emptyState with
          trace := emptyState.trace ++ [sysEnableInv, sysStartInv,
            pgQueryInv bUbuntu.user],
          log := emptyState.log ++ ["Setting up PostgreSQL...",
            "Command failed: " ++
              String.intercalate " " (pgQueryInv bUbuntu.user).argv] }) ∧
    pgCreateInv bUbuntu.user ∉
      [sysEnableInv, sysStartInv, pgQueryInv bUbuntu.user] :=
  C1_query_failure_skips_creation qfailHost bUbuntu emptyState (by decide)
    (by decide) (by decide)

/-! ## Claim C2 -/

/-- Claim C2 as stated is false: the user-existence query `id <user>` in
the identity step is not the database-role query, yet its non-zero exit is
caught rather than propagating — the run continues (later commands are
invoked) and the process exits 0. -/
theorem C2_counterexample :
    (idfailHost.exec (idInv "ubuntu")).returncode ≠ 0 ∧
    idInv "ubuntu" ∈ (bootstrap_main idfailHost provState).2.trace ∧
    aptUpdateInv ∈ (bootstrap_main idfailHost provState).2.trace ∧
    (bootstrap_main idfailHost provState).1 = 0 := by
  rw [run_idfail_eq]
  exact ⟨by decide, by decide, by decide, rfl⟩

/-- Claim C2 (amended): when run with administrative privilege, the run
appends some list of invocations to the trace; if the process exits 0,
every appended invocation either exited 0 or is one of the three guarded
invocations (the `id` user-existence query, the role-existence query, the
role-creation command); if the process exits non-zero, the appended
invocations are a run of succeeded-or-guarded commands followed by exactly
one failing command, after which nothing further was invoked — the first
unguarded failure halts the sequence and the process exits non-zero. -/
theorem C2_halt_on_unguarded_failure (host : Host) (s0 : HostState)
    (he : host.euid = 0) :
    ∃ new : List Invocation,
      (bootstrap_main host s0).2.trace = s0.trace ++ new ∧
      ((bootstrap_main host s0).1 = 0 →
        ∀ inv ∈ new, okOrGuarded host
          (guardedInvs (RailsBootstrap.init host.sudoUser).user) inv) ∧
      ((bootstrap_main host s0).1 ≠ 0 →
        ∃ pre last, new = pre ++ [last] ∧
          (host.exec last).returncode ≠ 0 ∧
          ∀ inv ∈ pre, okOrGuarded host
            (guardedInvs (RailsBootstrap.init host.sudoUser).user) inv) :=
  run_trace_discipline host s0 he

/-- Witness for the amended claim C2 at a concrete host. -/
theorem C2_halt_on_unguarded_failure_witness :
    ∃ new : List Invocation,
      (bootstrap_main idfailHost provState).2.trace =
        provState.trace ++ new ∧
      ((bootstrap_main idfailHost provState).1 = 0 →
        ∀ inv ∈ new, okOrGuarded idfailHost
          (guardedInvs
            (RailsBootstrap.init idfailHost.sudoUser).user) inv) ∧
      ((bootstrap_main idfailHost provState).1 ≠ 0 →
        ∃ pre last, new = pre ++ [last] ∧
          (idfailHost.exec last).returncode ≠ 0 ∧
          ∀ inv ∈ pre, okOrGuarded idfailHost
            (guardedInvs
              (RailsBootstrap.init idfailHost.sudoUser).user) inv) :=
  C2_halt_on_unguarded_failure idfailHost provState rfl

/-! ## Claim C3 -/

/-- Claim C3 as stated is false: on a fully provisioned host (mise binary
present, activation marker in the shell startup file, database role
reported present, every command succeeding) the run does exit 0, but it
still invokes install and network commands: `apt-get update`,
`apt-get install -y ...`, the six `mise install`/`mise use` commands and
the `gem install rails` shell all appear in the trace, because those steps
have no idempotency guard. -/
theorem C3_counterexample :
    (bootstrap_main provHost provState).1 = 0 ∧
    aptUpdateInv ∈ (bootstrap_main provHost provState).2.trace ∧
    aptInstallInv bUbuntu ∈ (bootstrap_main provHost provState).2.trace ∧
    miseInstallInv provHost bUbuntu "ruby@latest" ∈
      (bootstrap_main provHost provState).2.trace ∧
    railsInv provHost bUbuntu ∈
      (bootstrap_main provHost provState).2.trace := by
  rw [run_prov_eq]
  exact ⟨rfl, by decide, by decide, by decide, by decide⟩

/-- Claim C3 (amended): on a fully provisioned host the run exits 0 and
executes exactly the listed invocations: the guarded actions are skipped
(no mise installer download, no shell-file write and no accompanying chown
of `.bashrc`, no role creation) and the filesystem is untouched, but the
unguarded steps still invoke `apt-get`, the six mise commands, the
systemctl commands, the role query and the rails gem install. -/
theorem C3_provisioned_run (host : Host) (b : RailsBootstrap)
    (s0 : HostState) (hb : b = RailsBootstrap.init host.sudoUser)
    (he : host.euid = 0)
    (hall : ∀ inv, (host.exec inv).returncode = 0)
    (hq1 : strContains (host.exec (pgQueryInv b.user)).stdout "1" = true)
    (hm : (fsRead s0.fs (b.user_home ++ "/.local/bin/mise")).isSome = true)
    (hbrc : bashrcSatisfied (fsRead s0.fs (b.user_home ++ "/.bashrc")) =
      true) :
    bootstrap_main host s0 =
      (0,
       { s0 with
          dirs := s0.dirs ++ [b.user_home],
          trace := s0.trace ++ [idInv b.user, chownHomeInv b]
            ++ [aptUpdateInv, aptInstallInv b,
                miseInstallInv host b "ruby@latest",
                miseUseInv host b "ruby@latest",
                miseInstallInv host b "node@lts",
                miseUseInv host b "node@lts",
                miseInstallInv host b "yarn@latest",
                miseUseInv host b "yarn@latest"]
            ++ [sysEnableInv, sysStartInv, pgQueryInv b.user]
            ++ [railsInv host b],
          log := s0.log ++ ["Starting Rails environment setup..."] ++ []
            ++ ["Installing packages...",
                "Installing Ruby, Node.js, and Yarn..."]
            ++ ["Setting up PostgreSQL..."]
            ++ ["Installing Rails...",
                "✅ Setup complete! Switch to user: sudo su - " ++
                  b.user] }) ∧
    (bootstrap_main host s0).2.fs = s0.fs ∧
    (curlMiseInv b ∉ s0.trace →
      curlMiseInv b ∉ (bootstrap_main host s0).2.trace) ∧
    (pgCreateInv b.user ∉ s0.trace →
      pgCreateInv b.user ∉ (bootstrap_main host s0).2.trace) := by
  subst hb
  have hrun := bootstrap_main_of_ok host s0 _ he
    (bootSteps_fwd_generic host (RailsBootstrap.init host.sudoUser)
      [(RailsBootstrap.init host.sudoUser).user_home]
      [idInv (RailsBootstrap.init host.sudoUser).user,
       chownHomeInv (RailsBootstrap.init host.sudoUser)] []
      (by intro t
          rw [ensure_user_fwd_exists host (RailsBootstrap.init host.sudoUser)
            (hall _) (hall _) t]
          simp)
      (hall _) (hall _) s0.fs hm hbrc
      (hall _) (hall _) (hall _) (hall _) (hall _) (hall _)
      [sysEnableInv, sysStartInv,
       pgQueryInv (RailsBootstrap.init host.sudoUser).user]
      ["Setting up PostgreSQL..."]
      (setup_postgresql_fwd_present host (RailsBootstrap.init host.sudoUser)
        (hall _) (hall _) (hall _) hq1)
      (hall _) s0 rfl)
  refine ⟨hrun, by rw [hrun], ?_, ?_⟩
  · intro h0
    rw [hrun]
    simp only [List.append_assoc, List.mem_append, not_or]
    refine ⟨h0, ?_⟩
    simp [curlMiseInv, idInv, chownHomeInv, aptUpdateInv, aptInstallInv,
      miseInstallInv, miseUseInv, sysEnableInv, sysStartInv, pgQueryInv,
      railsInv, userEnv, Invocation.mk.injEq]
  · intro h0
    rw [hrun]
    simp only [List.append_assoc, List.mem_append, not_or]
    refine ⟨h0, ?_⟩
    simp [pgCreateInv, idInv, chownHomeInv, aptUpdateInv, aptInstallInv,
      miseInstallInv, miseUseInv, sysEnableInv, sysStartInv, pgQueryInv,
      railsInv, userEnv, applyUserWrapper, Invocation.mk.injEq]

/-- Witness for the amended claim C3 at a concrete host. -/
theorem C3_provisioned_run_witness :
    bootstrap_main provHost provState =
      (0,
       { provState with
          dirs := provState.dirs ++ [bUbuntu.user_home],
          trace := provState.trace ++ [idInv bUbuntu.user, chownHomeInv bUbuntu]
            ++ [aptUpdateInv, aptInstallInv bUbuntu,
                miseInstallInv provHost bUbuntu "ruby@latest",
                miseUseInv provHost bUbuntu "ruby@latest",
                miseInstallInv provHost bUbuntu "node@lts",
                miseUseInv provHost bUbuntu "node@lts",
                miseInstallInv provHost bUbuntu "yarn@latest",
                miseUseInv provHost bUbuntu "yarn@latest"]
            ++ [sysEnableInv, sysStartInv, pgQueryInv bUbuntu.user]
            ++ [railsInv provHost bUbuntu],
          log := provState.log ++ ["Starting Rails environment setup..."] ++ []
            ++ ["Installing packages...",
                "Installing Ruby, Node.js, and Yarn..."]
            ++ ["Setting up PostgreSQL..."]
            ++ ["Installing Rails...",
                "✅ Setup complete! Switch to user: sudo su - " ++
                  bUbuntu.user] }) ∧
    (bootstrap_main provHost provState).2.fs = provState.fs ∧
    (curlMiseInv bUbuntu ∉ provState.trace →
      curlMiseInv bUbuntu ∉ (bootstrap_main provHost provState).2.trace) ∧
    (pgCreateInv bUbuntu.user ∉ provState.trace →
      pgCreateInv bUbuntu.user ∉
        (bootstrap_main provHost provState).2.trace) :=
  C3_provisioned_run provHost bUbuntu provState rfl rfl
    (by intro inv
        simp only [provHost]
        split <;> rfl)
    (by decide) (by decide) (by decide)

/-! ## Claim C4 -/

/-- Claim C4: invoked without administrative privilege (effective uid not
0), the orchestrator logs the privilege error and exits with status 1
before any provisioning step runs: no command is invoked and the
filesystem and directory state are untouched. -/
theorem C4_privilege_check (host : Host) (s0 : HostState)
    (he : host.euid ≠ 0) :
    bootstrap_main host s0 =
      (1, { s0 with
              log := s0.log ++ ["Run as root: sudo python3 setup.py"] }) ∧
    (bootstrap_main host s0).1 ≠ 0 ∧
    (bootstrap_main host s0).2.trace = s0.trace ∧
    (bootstrap_main host s0).2.fs = s0.fs ∧
    (bootstrap_main host s0).2.dirs = s0.dirs := by
  have h := bootstrap_main_nonroot host s0 he
  refine ⟨h, ?_, ?_, ?_, ?_⟩ <;> rw [h]
  simp

/-- Witness for claim C4 at a concrete host with uid 1000. -/
theorem C4_privilege_check_witness :
    bootstrap_main nonRootHost emptyState =
      (1, { emptyState with
              log := emptyState.log ++
                ["Run as root: sudo python3 setup.py"] }) ∧
    (bootstrap_main nonRootHost emptyState).1 ≠ 0 ∧
    (bootstrap_main nonRootHost emptyState).2.trace = emptyState.trace ∧
    (bootstrap_main nonRootHost emptyState).2.fs = emptyState.fs ∧
    (bootstrap_main nonRootHost emptyState).2.dirs = emptyState.dirs :=
  C4_privilege_check nonRootHost emptyState (by decide)

/-! ## Claim C5 -/

/-- Claim C5: for the shell-configuration step, if the startup file exists
and already contains the activation marker `mise activate`, the step
returns with the whole state unchanged (nothing is written); if the file
exists but lacks the marker, the step appends the configuration block to
the existing content — the new content is exactly the old bytes followed
by the block, never an overwrite or truncation. -/
theorem C5_shell_append (host : Host) (b : RailsBootstrap) (s : HostState) :
    (∀ c, fsRead s.fs (b.user_home ++ "/.bashrc") = some c →
      strContains c "mise activate" = true →
      setup_shell host b s = (Except.ok (), s)) ∧
    (∀ c, fsRead s.fs (b.user_home ++ "/.bashrc") = some c →
      strContains c "mise activate" = false →
      fsRead ((setup_shell host b s).2).fs (b.user_home ++ "/.bashrc") =
        some (c ++ miseConfig)) := by
  constructor
  · intro c hrd hc
    exact setup_shell_fwd_marker host b s.fs
      (by simp [bashrcSatisfied, hrd, hc]) s rfl
  · intro c hrd hc
    rw [setup_shell_fs_append host b s (by simp [bashrcSatisfied, hrd, hc])]
    rw [fsRead_fsAppend_self]
    simp [hrd]

/-- Witness for claim C5: a marker-bearing file is left untouched and a
marker-free file gets the block appended after its old content. -/
theorem C5_shell_append_witness :
    setup_shell provHost bUbuntu provState = (Except.ok (), provState) ∧
    fsRead ((setup_shell provHost bUbuntu noMarkState).2).fs
        (bUbuntu.user_home ++ "/.bashrc") =
      some ("# plain bashrc\n" ++ miseConfig) :=
  ⟨(C5_shell_append provHost bUbuntu provState).1 miseConfig (by decide)
      (by decide),
   (C5_shell_append provHost bUbuntu noMarkState).2 "# plain bashrc\n"
      (by decide) (by decide)⟩

/-! ## Claim C6 -/

/-- Claim C6 as stated is false: when a command exits non-zero with
non-empty captured stdout and stderr, the raised error carries the exit
status and the argument list but leaves both stream fields empty (`none`),
and the log line contains only the argument list — the captured streams
are not surfaced anywhere. -/
theorem C6_counterexample :
    runCmd streamHost ["id", "ubuntu"] none none emptyState =
      (Except.error (BootErr.calledProcessError
          ⟨3, ["id", "ubuntu"], none, none⟩),
       { emptyState with trace := [idInv "ubuntu"],
                         log := ["Command failed: id ubuntu"] }) ∧
    (streamHost.exec (idInv "ubuntu")).stdout = "captured out" ∧
    (streamHost.exec (idInv "ubuntu")).stderr = "captured err" :=
  ⟨rfl, rfl, rfl⟩

/-- Claim C6 (amended): whenever a command exits non-zero, the executor
raises an error carrying the exit status and the failing (wrapped)
argument list with both stream fields `none`, and appends a log line
consisting of the words `Command failed:` followed by the argument list
joined with spaces; neither captured stream appears in the error or the
log line. -/
theorem C6_error_content (host : Host) (cmd0 : List String)
    (user : Option String) (env : Option EnvMap) (s : HostState)
    (h : (host.exec ⟨applyUserWrapper user cmd0, env⟩).returncode ≠ 0) :
    runCmd host cmd0 user env s =
      (Except.error (BootErr.calledProcessError
          ⟨(host.exec ⟨applyUserWrapper user cmd0, env⟩).returncode,
           applyUserWrapper user cmd0, none, none⟩),
       { s with trace := s.trace ++ [⟨applyUserWrapper user cmd0, env⟩],
                log := s.log ++ ["Command failed: " ++
                  String.intercalate " " (applyUserWrapper user cmd0)] }) :=
  runCmd_err host cmd0 user env _ rfl h s

/-- Witness for the amended claim C6 at a concrete failing command. -/
theorem C6_error_content_witness :
    runCmd streamHost ["systemctl", "enable", "postgresql"] none none
        emptyState =
      (Except.error (BootErr.calledProcessError
          ⟨(streamHost.exec ⟨applyUserWrapper none
              ["systemctl", "enable", "postgresql"], none⟩).returncode,
           applyUserWrapper none ["systemctl", "enable", "postgresql"],
           none, none⟩),
       { emptyState with
          trace := emptyState.trace ++
            [⟨applyUserWrapper none ["systemctl", "enable", "postgresql"],
              none⟩],
          log := emptyState.log ++ ["Command failed: " ++
            String.intercalate " "
              (applyUserWrapper none
                ["systemctl", "enable", "postgresql"])] }) :=
  C6_error_content streamHost ["systemctl", "enable", "postgresql"] none
    none emptyState (by decide)

/-! ## Claim C7 -/

/-- Claim C7: the executor records in the trace exactly the argv it runs:
for a named (non-empty) non-root user the argv is the original command
prefixed with the impersonation wrapper `sudo -u <user> -H`; for `root`
or for no user at all the original command runs unwrapped.  (By Python
string truthiness an empty user name — possible only when `SUDO_USER` is
set to the empty string — also runs unwrapped, like no user at all.) -/
theorem C7_user_wrapper (host : Host) (cmd0 : List String) (u : String)
    (env : Option EnvMap) (s : HostState) (hu : u ≠ "")
    (hru : u ≠ "root") :
    ((runCmd host cmd0 (some u) env s).2.trace = s.trace ++
      [⟨["sudo", "-u", u, "-H"] ++ cmd0, env⟩]) ∧
    ((runCmd host cmd0 none env s).2.trace = s.trace ++ [⟨cmd0, env⟩]) ∧
    ((runCmd host cmd0 (some "root") env s).2.trace = s.trace ++
      [⟨cmd0, env⟩]) := by
  refine ⟨?_, ?_, ?_⟩
  · rw [runCmd_trace]
    simp [applyUserWrapper, hu, hru]
  · rw [runCmd_trace]
    rfl
  · rw [runCmd_trace]
    simp [applyUserWrapper]

/-- Witness for claim C7 at a concrete command and user. -/
theorem C7_user_wrapper_witness :
    ((runCmd streamHost ["id", "ubuntu"] (some "ubuntu") none
        emptyState).2.trace = emptyState.trace ++
      [⟨["sudo", "-u", "ubuntu", "-H"] ++ ["id", "ubuntu"], none⟩]) ∧
    ((runCmd streamHost ["id", "ubuntu"] none none emptyState).2.trace =
      emptyState.trace ++ [⟨["id", "ubuntu"], none⟩]) ∧
    ((runCmd streamHost ["id", "ubuntu"] (some "root") none
        emptyState).2.trace =
      emptyState.trace ++ [⟨["id", "ubuntu"], none⟩]) :=
  C7_user_wrapper streamHost ["id", "ubuntu"] "ubuntu" none emptyState
    (by decide) (by decide)

/-! ## Claim C8 -/

/-- Claim C8: whenever the process exits 0, the run decomposes as the
seven step groups executed in the declared fixed order — ensure the target
user, install OS packages, install mise, configure the shell startup file,
install the runtimes, set up PostgreSQL, install Rails — each step started
from exactly the state its predecessor returned successfully, and the
final state is the last step state plus the completion log line. -/
theorem C8_step_order (host : Host) (s0 : HostState)
    (h : (bootstrap_main host s0).1 = 0) :
    ∃ s1 s2 s3 s4 s5 s6 s7 : HostState,
      ensure_user host (RailsBootstrap.init host.sudoUser)
        { s0 with
           log := s0.log ++ ["Starting Rails environment setup..."] } =
          (Except.ok (), s1) ∧
      install_packages host (RailsBootstrap.init host.sudoUser) s1 =
        (Except.ok (), s2) ∧
      install_mise host (RailsBootstrap.init host.sudoUser) s2 =
        (Except.ok (), s3) ∧
      setup_shell host (RailsBootstrap.init host.sudoUser) s3 =
        (Except.ok (), s4) ∧
      install_runtimes host (RailsBootstrap.init host.sudoUser) s4 =
        (Except.ok (), s5) ∧
      setup_postgresql host (RailsBootstrap.init host.sudoUser) s5 =
        (Except.ok (), s6) ∧
      install_rails host (RailsBootstrap.init host.sudoUser) s6 =
        (Except.ok (), s7) ∧
      (bootstrap_main host s0).2 =
        { s7 with log := s7.log ++
            ["✅ Setup complete! Switch to user: sudo su - " ++
              (RailsBootstrap.init host.sudoUser).user] } := by
  by_cases he : host.euid = 0
  · have hmain : bootstrap_main host s0 =
        (match bootSteps host (RailsBootstrap.init host.sudoUser) s0 with
         | (Except.ok _, s) => (0, s)
         | (Except.error (BootErr.systemExit c), s) => (c, s)
         | (Except.error (BootErr.calledProcessError _), s) => (1, s)) := by
      simp only [bootstrap_main]
      rw [bootRun_root host (RailsBootstrap.init host.sudoUser) he s0]
    rcases hres : bootSteps host (RailsBootstrap.init host.sudoUser) s0
      with ⟨r, S⟩
    rw [hres] at hmain
    cases r with
    | error e =>
      obtain ⟨c, hc⟩ := CPEOnly_bootSteps host
        (RailsBootstrap.init host.sudoUser) s0 e (by rw [hres])
      subst hc
      rw [hmain] at h
      exact absurd h (by simp)
    | ok a =>
      cases a
      obtain ⟨s1, s2, s3, s4, s5, s6, s7, h1, h2, h3, h4, h5, h6, h7, hS⟩ :=
        bootSteps_ok_decompose host (RailsBootstrap.init host.sudoUser) s0 S
          hres
      refine ⟨s1, s2, s3, s4, s5, s6, s7, h1, h2, h3, h4, h5, h6, h7, ?_⟩
      rw [hmain]
      exact hS
  · rw [bootstrap_main_nonroot host s0 he] at h
    exact absurd h (by simp)

/-- Witness for claim C8 at a concrete successful run. -/
theorem C8_step_order_witness :
    ∃ s1 s2 s3 s4 s5 s6 s7 : HostState,
      ensure_user provHost (RailsBootstrap.init provHost.sudoUser)
        { provState with
           log := provState.log ++
             ["Starting Rails environment setup..."] } =
          (Except.ok (), s1) ∧
      install_packages provHost (RailsBootstrap.init provHost.sudoUser) s1 =
        (Except.ok (), s2) ∧
      install_mise provHost (RailsBootstrap.init provHost.sudoUser) s2 =
        (Except.ok (), s3) ∧
      setup_shell provHost (RailsBootstrap.init provHost.sudoUser) s3 =
        (Except.ok (), s4) ∧
      install_runtimes provHost (RailsBootstrap.init provHost.sudoUser) s4 =
        (Except.ok (), s5) ∧
      setup_postgresql provHost (RailsBootstrap.init provHost.sudoUser) s5 =
        (Except.ok (), s6) ∧
      install_rails provHost (RailsBootstrap.init provHost.sudoUser) s6 =
        (Except.ok (), s7) ∧
      (bootstrap_main provHost provState).2 =
        { s7 with log := s7.log ++
            ["✅ Setup complete! Switch to user: sudo su - " ++
              (RailsBootstrap.init provHost.sudoUser).user] } :=
  C8_step_order provHost provState (by rw [run_prov_eq])

/-! ## Claim C9 -/

/-- Claim C9: a non-zero exit of the role-creation command itself is
silently swallowed by the `try/except` around the database block: the
database step still returns success with the creation command in its
trace, and a whole run in which only the role-creation command fails still
exits 0 even though the role was never created. -/
theorem C9_create_failure_swallowed :
    (∀ (host : Host) (b : RailsBootstrap) (s : HostState),
      (host.exec sysEnableInv).returncode = 0 →
      (host.exec sysStartInv).returncode = 0 →
      (host.exec (pgQueryInv b.user)).returncode = 0 →
      strContains (host.exec (pgQueryInv b.user)).stdout "1" = false →
      (host.exec (pgCreateInv b.user)).returncode ≠ 0 →
      setup_postgresql host b s =
        (Except.ok (),
         { s with trace := s.trace ++ [sysEnableInv, sysStartInv,
                    pgQueryInv b.user, pgCreateInv b.user],
                  log := s.log ++ ["Setting up PostgreSQL...",
                    "Command failed: " ++
                      String.intercalate " "
                        (pgCreateInv b.user).argv] })) ∧
    ((createFailHost.exec (pgCreateInv "ubuntu")).returncode ≠ 0 ∧
     pgCreateInv "ubuntu" ∈
       (bootstrap_main createFailHost provState).2.trace ∧
     (bootstrap_main createFailHost provState).1 = 0) := by
  constructor
  · intro host b s he hs hq h1 hc
    exact setup_postgresql_fwd_create_fail host b he hs hq h1 hc s
  · rw [run_createfail_eq]
    exact ⟨by decide, by decide, rfl⟩

/-- Witness for claim C9 instantiating the universal part at a concrete
host where only the creation command fails. -/
theorem C9_create_failure_swallowed_witness :
    setup_postgresql createFailHost bUbuntu emptyState =
      (Except.ok (),
       { emptyState with
          trace := emptyState.trace ++ [sysEnableInv, sysStartInv,
            pgQueryInv bUbuntu.user, pgCreateInv bUbuntu.user],
          log := emptyState.log ++ ["Setting up PostgreSQL...",
            "Command failed: " ++
              String.intercalate " " (pgCreateInv bUbuntu.user).argv] }) :=
  C9_create_failure_swallowed.1 createFailHost bUbuntu emptyState
    (by decide) (by decide) (by decide) (by decide) (by decide)

/-! ## Claim C10 -/

/-- Claim C10: the target user name comes from the single environment
variable `SUDO_USER`, defaulting to `ubuntu` when it is unset; for every
name the home directory is the fixed path `/home/<name>` (never resolved
through the account database), and the mise binary path is derived from
that fixed home path. -/
theorem C10_identity_resolution :
    (RailsBootstrap.init none).user = "ubuntu" ∧
    (∀ n, (RailsBootstrap.init (some n)).user = n) ∧
    (∀ o, (RailsBootstrap.init o).user = o.getD "ubuntu") ∧
    (∀ o, (RailsBootstrap.init o).user_home =
      "/home/" ++ (RailsBootstrap.init o).user) ∧
    (∀ o, (RailsBootstrap.init o).mise_bin =
      (RailsBootstrap.init o).user_home ++ "/.local/bin/mise") :=
  ⟨rfl, fun _ => rfl, fun _ => rfl, fun _ => rfl, fun _ => rfl⟩
